import Mathlib

/-!
Verification development for the NL2SQL translation API
(translation orchestration pipeline and validation engine).

The Python sources are shallowly embedded:

* strings are `List Char` (ASCII fragment; `re` character classes `\s`, `\w`
  and `str.upper()/lower()` are modelled on ASCII, which covers every
  pattern and keyword the code matches on);
* each regular expression used by the code is translated into an
  executable scanner over `List Char` (case-insensitive matching is
  modelled by comparing upper-cased characters, which is equivalent to
  the code's `IGNORECASE` flag or its explicit `.upper()` normalisation);
* `async` provider / collaborator calls are oracles: their outcomes are
  fields of an environment record, and exceptions are `Except` values;
* Python `dict` result records are Lean structures with `Option` fields
  for nullable entries.
-/

namespace NL2SQL

abbrev Str := List Char

/-- Python `\s` (ASCII): space, tab, newline, carriage return, vertical tab, form feed. -/
def isWS (c : Char) : Bool :=
  c == ' ' || c == '\t' || c == '\n' || c == '\r' || c == Char.ofNat 11 || c == Char.ofNat 12

/-- Python `\w` (ASCII): letters, digits, underscore. -/
def isWordChar (c : Char) : Bool := c.isAlpha || c.isDigit || c == '_'

/-- `str.upper()` character-wise (ASCII). -/
def upS (s : Str) : Str := s.map Char.toUpper

/-- `str.lower()` character-wise (ASCII). -/
def lowS (s : Str) : Str := s.map Char.toLower

/-- `re` `\s*`: drop a (possibly empty) whitespace run. -/
def dropWS (s : Str) : Str := s.dropWhile (fun c => isWS c)

/-- Python `str.rstrip()`. -/
def stripR (s : Str) : Str := (dropWS s.reverse).reverse

/-- Python `str.strip()`. -/
def pstrip (s : Str) : Str := stripR (dropWS s)

/-- First maximal run of non-whitespace characters (used for `s.split()[0]`). -/
def takeTok (s : Str) : Str := s.takeWhile (fun c => !(isWS c))

/-- Word boundary `\b` immediately before a word character: the previous
character (if any) must not be a word character. -/
def wordBoundary (prev : Option Char) : Bool :=
  match prev with
  | none => true
  | some c => !(isWordChar c)

/-- Generic `re.search` driver: try the anchored matcher `step` at every
position, left to right, feeding it the character preceding the position
(for `\b` tests). -/
def scanB (step : Option Char → Str → Bool) : Option Char → Str → Bool
  | prev, [] => step prev []
  | prev, c :: t => step prev (c :: t) || scanB step (some c) t

/-- Generic first-match driver (for `re.search(...).group(...)`). -/
def findFirst (step : Option Char → Str → Option α) : Option Char → Str → Option α
  | prev, [] => step prev []
  | prev, c :: t =>
    match step prev (c :: t) with
    | some a => some a
    | none => findFirst step (some c) t

/-- Case-insensitive literal matcher: `lit` is given upper-case; returns the
consumed original characters and the rest. -/
def eatLitU : Str → Str → Option (Str × Str)
  | [], u => some ([], u)
  | _ :: _, [] => none
  | l :: ls, c :: cs =>
    if c.toUpper == l then
      match eatLitU ls cs with
      | some p => some (c :: p.1, p.2)
      | none => none
    else none

/-- `\s+` (greedy, maximal): returns the run, its last character, and the rest. -/
def wsRun1 : Str → Option (Str × Char × Str)
  | [] => none
  | c :: t =>
    if isWS c then
      match wsRun1 t with
      | some (run, l, rest) => some (c :: run, l, rest)
      | none => some ([c], c, t)
    else none

/-- `\w+` (greedy, maximal): returns the run, its last character, and the rest. -/
def wordRun1 : Str → Option (Str × Char × Str)
  | [] => none
  | c :: t =>
    if isWordChar c then
      match wordRun1 t with
      | some (run, l, rest) => some (c :: run, l, rest)
      | none => some ([c], c, t)
    else none

/-- Substring containment (`needle in hay` for already-normalised strings). -/
def containsStr (hay needle : Str) : Bool :=
  scanB (fun _ u => needle.isPrefixOf u) none hay

/-- Bounded-fuel generic `re.findall` driver: collect non-overlapping matches
left to right, resuming after each match.  All matchers used with it consume
at least one character, so fuel `s.length` is never exhausted. -/
def findAllGAux (step : Option Char → Str → Option (α × Char × Str)) :
    Nat → Option Char → Str → List α
  | 0, _, _ => []
  | _ + 1, _, [] => []
  | fuel + 1, prev, c :: t =>
    match step prev (c :: t) with
    | some (a, l, rest) => a :: findAllGAux step fuel (some l) rest
    | none => findAllGAux step fuel (some c) t

def findAllG (step : Option Char → Str → Option (α × Char × Str)) (s : Str) : List α :=
  findAllGAux step s.length none s

/-! ### Anchored matchers for the individual regular expressions -/

/-- `\b\w+\.ID_USER\s*=\s*\?` (IGNORECASE), anchored at one position
(`framework_patterns['user_filter']`). -/
def ufStep (prev : Option Char) (u : Str) : Bool :=
  wordBoundary prev &&
  (match wordRun1 u with
   | some (_, _, r1) =>
     match r1 with
     | '.' :: r2 =>
       match eatLitU (("ID_USER").toList) r2 with
       | some (_, r3) =>
         match dropWS r3 with
         | '=' :: r4 =>
           match dropWS r4 with
           | '?' :: _ => true
           | _ => false
         | _ => false
       | none => false
     | _ => false
   | none => false)

/-- `re.search(r'\b\w+\.ID_USER\s*=\s*\?', s, re.IGNORECASE)`. -/
def searchUserFilter (s : Str) : Bool := scanB ufStep none s

/-- `\bDEPOT\s+(\w+)` (IGNORECASE) anchored at one position; returns the
captured alias, its last character and the rest after the match. -/
def depotMatch (prev : Option Char) (u : Str) : Option (Str × Char × Str) :=
  if wordBoundary prev then
    match eatLitU (("DEPOT").toList) u with
    | some (_, r1) =>
      match wsRun1 r1 with
      | some (_, _, r2) =>
        match wordRun1 r2 with
        | some (w, l, rest) => some (w, l, rest)
        | none => none
      | none => none
    | none => none
  else none

/-- `\bFACTS\s+(\w+)` (IGNORECASE), anchored. -/
def factsMatch (prev : Option Char) (u : Str) : Option (Str × Char × Str) :=
  if wordBoundary prev then
    match eatLitU (("FACTS").toList) u with
    | some (_, r1) =>
      match wsRun1 r1 with
      | some (_, _, r2) =>
        match wordRun1 r2 with
        | some (w, l, rest) => some (w, l, rest)
        | none => none
      | none => none
    | none => none
  else none

/-- First `\bDEPOT\s+(\w+)` alias (`re.search(...).group(1)`). -/
def findDepotAlias (s : Str) : Option Str :=
  (findFirst depotMatch none s).map (fun p => p.1)

/-- First `\bFACTS\s+(\w+)` alias. -/
def findFactsAlias (s : Str) : Option Str :=
  (findFirst factsMatch none s).map (fun p => p.1)

/-- `re.search(r'\bDEPOT\s+\w+', s, re.IGNORECASE)`
(`framework_patterns['depot_table']`). -/
def searchDepotTable (s : Str) : Bool := (findFirst depotMatch none s).isSome

/-- `#\w+#` anchored with captured tag (for `re.findall(r'#(\w+)#', s)`). -/
def hashtagMatch (_prev : Option Char) (u : Str) : Option (Str × Char × Str) :=
  match u with
  | '#' :: r =>
    match wordRun1 r with
    | some (w, _, rest) =>
      match rest with
      | '#' :: rest2 => some (w, '#', rest2)
      | _ => none
    | none => none
  | _ => none

/-- `re.search(r'#\w+#', s)` (`framework_patterns['hashtags']`, case sensitive). -/
def searchHashtags (s : Str) : Bool := (findFirst hashtagMatch none s).isSome

/-- `re.findall(r'#(\w+)#', s)`. -/
def findAllHashtags (s : Str) : List Str := findAllG hashtagMatch s

/-- `re.findall(r'\bDEPOT\s+(\w+)', s, re.IGNORECASE)`. -/
def findAllDepotAliases (s : Str) : List Str := findAllG depotMatch s

/-- `re.findall(r'\bFACTS\s+(\w+)', s, re.IGNORECASE)`. -/
def findAllFactsAliases (s : Str) : List Str := findAllG factsMatch s

/-- `\bK\b` for a single keyword `k` (given upper-case), IGNORECASE, anchored. -/
def kwIsoStep (k : Str) (prev : Option Char) (u : Str) : Bool :=
  wordBoundary prev &&
  (match eatLitU k u with
   | some (_, rest) =>
     match rest with
     | [] => true
     | c :: _ => !(isWordChar c)
   | none => false)

/-- `\bK1\s+K2\b` for a two-word keyword, IGNORECASE, anchored. -/
def kwPairStep (k1 k2 : Str) (prev : Option Char) (u : Str) : Bool :=
  wordBoundary prev &&
  (match eatLitU k1 u with
   | some (_, r1) =>
     match wsRun1 r1 with
     | some (_, _, r2) =>
       match eatLitU k2 r2 with
       | some (_, rest) =>
         match rest with
         | [] => true
         | c :: _ => !(isWordChar c)
       | none => false
     | none => false
   | none => false)

/-- `re.search(r'^\s*K\s+', sql.upper())`: leading destructive-keyword test. -/
def leadKwWs (k : Str) (s : Str) : Bool :=
  match eatLitU k (dropWS s) with
  | some (_, r) =>
    match r with
    | c :: _ => isWS c
    | [] => false
  | none => false

/-- `K\s+` anchored (no word boundary), for `EXECUTE\s+` / `EXEC\s+`. -/
def kwWsStep (k : Str) (u : Str) : Bool :=
  match eatLitU k u with
  | some (_, c :: _) => isWS c
  | _ => false

/-- `re.search(r'K\s+', sql.upper())` anywhere in the string. -/
def kwWsSearch (k : Str) (s : Str) : Bool :=
  scanB (fun _ u => kwWsStep k u) none s

/-- `;\s*K\s+` anchored (IGNORECASE), for the injection patterns. -/
def semiKwStep (k : Str) (u : Str) : Bool :=
  match u with
  | ';' :: r =>
    match eatLitU k (dropWS r) with
    | some (_, c :: _) => isWS c
    | _ => false
  | _ => false

/-- `UNION\s+SELECT` anchored (IGNORECASE). -/
def unionSelectStep (u : Str) : Bool :=
  match eatLitU (("UNION").toList) u with
  | some (_, r1) =>
    match wsRun1 r1 with
    | some (_, _, r2) => (eatLitU (("SELECT").toList) r2).isSome
    | none => false
  | none => false

/-- `--(?!\s*#)` anchored: a double dash whose lookahead `\s*#` fails. -/
def dashDashStep (u : Str) : Bool :=
  match u with
  | '-' :: '-' :: r =>
    match dropWS r with
    | '#' :: _ => false
    | _ => true
  | _ => false

/-- Scan for `*/` with no intervening newline (the `.*\*/` part of the
block-comment pattern: `.` does not match a newline). -/
def starSlashBefore : Str → Bool
  | '*' :: '/' :: _ => true
  | '\n' :: _ => false
  | _ :: t => starSlashBefore t
  | [] => false

/-- `/\*.*\*/` anchored. -/
def blockCommentStep (u : Str) : Bool :=
  match u with
  | '/' :: '*' :: r => starSlashBefore r
  | _ => false

/-- `\b(20\d{2})\b` anchored: a four-digit year token starting `20`. -/
def yearMatch (prev : Option Char) (u : Str) : Option (Str × Char × Str) :=
  if wordBoundary prev then
    match u with
    | '2' :: '0' :: c :: d :: rest =>
      if c.isDigit && d.isDigit then
        match rest with
        | [] => some (['2', '0', c, d], d, [])
        | e :: _ => if isWordChar e then none else some (['2', '0', c, d], d, rest)
      else none
    | _ => none
  else none

/-- `re.findall(r'\b(20\d{2})\b', s)`. -/
def findYears (s : Str) : List Str := findAllG yearMatch s

/-- `\bWHERE\s+` (IGNORECASE) anchored; returns the matched text (keyword and
greedy whitespace run), the last matched character and the rest. -/
def whereMatch (prev : Option Char) (u : Str) : Option (Str × Char × Str) :=
  if wordBoundary prev then
    match eatLitU (("WHERE").toList) u with
    | some (w5, r1) =>
      match wsRun1 r1 with
      | some (run, l, rest) => some (w5 ++ run, l, rest)
      | none => none
    | none => none
  else none

/-- `\s+GROUP\s+BY` (IGNORECASE) anchored; returns matched text and rest. -/
def groupByMatch (u : Str) : Option (Str × Str) :=
  match wsRun1 u with
  | some (r1, _, u1) =>
    match eatLitU (("GROUP").toList) u1 with
    | some (g, u2) =>
      match wsRun1 u2 with
      | some (r2, _, u3) =>
        match eatLitU (("BY").toList) u3 with
        | some (b, u4) => some (r1 ++ g ++ r2 ++ b, u4)
        | none => none
      | none => none
    | none => none
  | none => none

/-- `\s+ORDER\s+BY` (IGNORECASE) anchored. -/
def orderByMatch (u : Str) : Option (Str × Str) :=
  match wsRun1 u with
  | some (r1, _, u1) =>
    match eatLitU (("ORDER").toList) u1 with
    | some (g, u2) =>
      match wsRun1 u2 with
      | some (r2, _, u3) =>
        match eatLitU (("BY").toList) u3 with
        | some (b, u4) => some (r1 ++ g ++ r2 ++ b, u4)
        | none => none
      | none => none
    | none => none
  | none => none

/-! ### The `re.sub` replacement functions used by the auto-fix -/

/-- Fuel recursion for `subWhereAll` (every matcher consumes at least one
character, so fuel `s.length` is never exhausted). -/
def subWhereAllAux (ins : Str) : Nat → Option Char → Str → Str
  | 0, _, _ => []
  | _ + 1, _, [] => []
  | fuel + 1, prev, c :: t =>
    match whereMatch prev (c :: t) with
    | some (m, l, rest) => m ++ ins ++ subWhereAllAux ins fuel (some l) rest
    | none => c :: subWhereAllAux ins fuel (some c) t

/-- `re.sub(r'(\bWHERE\s+)', '\\1' + ins, s, flags=re.IGNORECASE)`: every
match is kept and `ins` inserted right after it. -/
def subWhereAll (ins : Str) (prev : Option Char) (s : Str) : Str :=
  subWhereAllAux ins s.length prev s

/-- Fuel recursion for `subGroupAll`. -/
def subGroupAllAux (ins : Str) : Nat → Str → Str
  | 0, _ => []
  | _ + 1, [] => []
  | fuel + 1, c :: t =>
    match groupByMatch (c :: t) with
    | some (m, rest) => ins ++ m ++ subGroupAllAux ins fuel rest
    | none => c :: subGroupAllAux ins fuel t

/-- `re.sub(r'(\s+GROUP\s+BY)', ins + '\\1', s, flags=re.IGNORECASE)`. -/
def subGroupAll (ins : Str) (s : Str) : Str := subGroupAllAux ins s.length s

/-- Fuel recursion for `subOrdAll`. -/
def subOrdAllAux (ins : Str) : Nat → Str → Str
  | 0, _ => []
  | _ + 1, [] => []
  | fuel + 1, c :: t =>
    match orderByMatch (c :: t) with
    | some (m, rest) => ins ++ m ++ subOrdAllAux ins fuel rest
    | none => c :: subOrdAllAux ins fuel t

/-- `re.sub(r'(\s+ORDER\s+BY)', ins + '\\1', s, flags=re.IGNORECASE)`. -/
def subOrdAll (ins : Str) (s : Str) : Str := subOrdAllAux ins s.length s

/-- Length of the maximal suffix matching `\s*;?\s*` (the region where the
pattern `\s*;?\s*$` can start). -/
def endTailLen (s : Str) : Nat :=
  let r := s.reverse
  let a := r.takeWhile (fun c => isWS c)
  match r.drop a.length with
  | ';' :: r3 => a.length + 1 + (r3.takeWhile (fun c => isWS c)).length
  | _ => a.length

/-- `re.sub(r'(\s*;?\s*$)', ins + '\\1', s)`: the leftmost match starts at the
beginning of the maximal trailing `\s*;?\s*` region and consumes it entirely;
when that match is non-empty, Python (3.7+) additionally replaces the empty
match at the very end of the string. -/
def subEndAll (ins : Str) (s : Str) : Str :=
  let tl := endTailLen s
  if tl = 0 then s ++ ins
  else s.take (s.length - tl) ++ ins ++ s.drop (s.length - tl) ++ ins

/-! ### `ValidationService` security and syntax checks -/

/-- Apostrophe character (kept out of string literals). -/
def apoC : Char := Char.ofNat 39

/-- Double-quote character. -/
def dquoteC : Char := Char.ofNat 34

/-- Backtick character. -/
def btickC : Char := Char.ofNat 96

/-- `ValidationService._check_destructive_operations`: the patterns are tried
in dictionary order on `sql_query.upper()` (modelled by case-insensitive
matching on `sql_query`). -/
def checkDestructiveOperations (sql : Str) : Bool × Str :=
  if leadKwWs (("DELETE").toList) sql then
    (true, ("Les opérations DELETE ne sont pas autorisées").toList)
  else if leadKwWs (("DROP").toList) sql then
    (true, ("Les opérations DROP ne sont pas autorisées").toList)
  else if leadKwWs (("TRUNCATE").toList) sql then
    (true, ("Les opérations TRUNCATE ne sont pas autorisées").toList)
  else if leadKwWs (("ALTER").toList) sql then
    (true, ("Les opérations ALTER ne sont pas autorisées").toList)
  else if leadKwWs (("UPDATE").toList) sql then
    (true, ("Les opérations UPDATE ne sont pas autorisées").toList)
  else if leadKwWs (("INSERT").toList) sql then
    (true, ("Les opérations INSERT ne sont pas autorisées").toList)
  else if leadKwWs (("CREATE").toList) sql then
    (true, ("Les opérations CREATE ne sont pas autorisées").toList)
  else if kwWsSearch (("EXECUTE").toList) sql then
    (true, ("L").toList ++ [apoC] ++ ("exécution de procédures stockées n").toList ++ [apoC] ++ ("est pas autorisée").toList)
  else if kwWsSearch (("EXEC").toList) sql then
    (true, ("L").toList ++ [apoC] ++ ("exécution de procédures stockées n").toList ++ [apoC] ++ ("est pas autorisée").toList)
  else
    (false, ("Aucune opération destructive détectée").toList)

/-- The SQL "begins with a keyword from the destructive set": disjunction of
the seven statement-leading patterns of `_check_destructive_operations`
(`^\s*K\s+` for K in DELETE, DROP, TRUNCATE, ALTER, UPDATE, INSERT, CREATE). -/
def destrLead (s : Str) : Bool :=
  leadKwWs (("DELETE").toList) s || leadKwWs (("DROP").toList) s ||
  leadKwWs (("TRUNCATE").toList) s || leadKwWs (("ALTER").toList) s ||
  leadKwWs (("UPDATE").toList) s || leadKwWs (("INSERT").toList) s ||
  leadKwWs (("CREATE").toList) s

/-- Message prefix for flagged injection patterns
(`f"Pattern d'injection SQL détecté: {pattern}"`). -/
def injMsg (pat : Str) : Str :=
  ("Pattern d").toList ++ [apoC] ++ ("injection SQL détecté: ").toList ++ pat

/-- `ValidationService._check_sql_injection`: the eight `injection_patterns`
tried in list order with `re.IGNORECASE`. -/
def checkSqlInjection (sql : Str) : Bool × Str :=
  if scanB (fun _ u => semiKwStep (("DROP").toList) u) none sql then
    (true, injMsg ((";\\s*DROP\\s+").toList))
  else if scanB (fun _ u => semiKwStep (("DELETE").toList) u) none sql then
    (true, injMsg ((";\\s*DELETE\\s+").toList))
  else if scanB (fun _ u => semiKwStep (("UPDATE").toList) u) none sql then
    (true, injMsg ((";\\s*UPDATE\\s+").toList))
  else if scanB (fun _ u => semiKwStep (("INSERT").toList) u) none sql then
    (true, injMsg ((";\\s*INSERT\\s+").toList))
  else if scanB (fun _ u => semiKwStep (("ALTER").toList) u) none sql then
    (true, injMsg ((";\\s*ALTER\\s+").toList))
  else if scanB (fun _ u => unionSelectStep u) none sql then
    (true, injMsg (("UNION\\s+SELECT").toList))
  else if scanB (fun _ u => dashDashStep u) none sql then
    (true, injMsg (("--(?!\\s*#)").toList))
  else if scanB (fun _ u => blockCommentStep u) none sql then
    (true, injMsg (("/\\*.*\\*/").toList))
  else
    (false, ("Aucun pattern d").toList ++ [apoC] ++ ("injection détecté").toList)

/-- `ValidationService.validate_security`; `none` models the `ValidationError`
raised on an empty argument. -/
def validateSecurity (sql : Str) : Option (Bool × Str) :=
  if sql = [] then none
  else
    let d := checkDestructiveOperations sql
    if d.1 then some (false, d.2)
    else
      let i := checkSqlInjection sql
      if i.1 then some (false, i.2)
      else some (true, ("Requête sécurisée").toList)

/-- The 19 `basic_keywords` of `validate_sql_syntax`, searched as
`\bKW\b` with interior spaces generalised to `\s+`. -/
def basicKeywordSearch (s : Str) : Bool :=
  scanB (kwIsoStep (("SELECT").toList)) none s ||
  scanB (kwIsoStep (("FROM").toList)) none s ||
  scanB (kwIsoStep (("WHERE").toList)) none s ||
  scanB (kwPairStep (("GROUP").toList) (("BY").toList)) none s ||
  scanB (kwPairStep (("ORDER").toList) (("BY").toList)) none s ||
  scanB (kwIsoStep (("HAVING").toList)) none s ||
  scanB (kwIsoStep (("JOIN").toList)) none s ||
  scanB (kwPairStep (("INNER").toList) (("JOIN").toList)) none s ||
  scanB (kwPairStep (("LEFT").toList) (("JOIN").toList)) none s ||
  scanB (kwPairStep (("RIGHT").toList) (("JOIN").toList)) none s ||
  scanB (kwPairStep (("OUTER").toList) (("JOIN").toList)) none s ||
  scanB (kwIsoStep (("UNION").toList)) none s ||
  scanB (kwIsoStep (("INSERT").toList)) none s ||
  scanB (kwIsoStep (("UPDATE").toList)) none s ||
  scanB (kwIsoStep (("DELETE").toList)) none s ||
  scanB (kwIsoStep (("CREATE").toList)) none s ||
  scanB (kwIsoStep (("ALTER").toList)) none s ||
  scanB (kwIsoStep (("DROP").toList)) none s ||
  scanB (kwIsoStep (("TRUNCATE").toList)) none s

/-- `valid_first_words` of `validate_sql_syntax`. -/
def validFirstWords : List Str :=
  [("SELECT").toList, ("INSERT").toList, ("UPDATE").toList, ("DELETE").toList,
   ("CREATE").toList, ("ALTER").toList, ("DROP").toList, ("TRUNCATE").toList,
   ("WITH").toList, ("EXPLAIN").toList, ("DESCRIBE").toList, ("SHOW").toList]

/-- `ValidationService.validate_sql_syntax`; `none` models the
`ValidationError` raised on an empty argument.  On success the error message
is `none` (Python `None`). -/
def validateSqlSyntax (sql : Str) : Option (Bool × Option Str) :=
  if sql = [] then none
  else
    let s := pstrip sql
    if !(basicKeywordSearch s) then
      some (false, some (("La requête ne contient aucun mot-clé SQL standard").toList))
    else if s.count '(' ≠ s.count ')' then
      some (false, some (("Les parenthèses ne sont pas équilibrées").toList))
    else if s.count apoC % 2 ≠ 0 then
      some (false, some (("Les guillemets simples (").toList ++ [apoC] ++ (") ne sont pas équilibrés").toList))
    else if s.count dquoteC % 2 ≠ 0 then
      some (false, some (("Les guillemets doubles (").toList ++ [dquoteC] ++ (") ne sont pas équilibrés").toList))
    else if s.count btickC % 2 ≠ 0 then
      some (false, some (("Les backticks (").toList ++ [btickC] ++ (") ne sont pas équilibrés").toList))
    else
      let fw := upS (takeTok s)
      if fw ∈ validFirstWords then some (true, none)
      else
        some (false, some (("La requête commence par ").toList ++ [apoC] ++ fw ++ [apoC] ++
          (", qui n").toList ++ [apoC] ++ ("est pas un mot-clé SQL standard").toList))

/-! ### Framework analysis, validation and auto-fix -/

structure FrameworkElements where
  hasUserFilter : Bool
  hasDepotTable : Bool
  hasHashtags : Bool
  isSelectQuery : Bool
  hasWhereClause : Bool
  hasJoinDepot : Bool
  depotAliases : List Str
  factsAliases : List Str
  hasDepotAlias : Bool
  hasFactsAlias : Bool
  foundHashtags : List Str
  hasDepotHashtag : Bool
  hasFactsHashtag : Bool
  hasPeriodeHashtag : Bool
deriving Repr, DecidableEq

/-- `ValidationService._analyze_framework_elements`. -/
def analyzeFrameworkElements (s : Str) : FrameworkElements :=
  let dAl := findAllDepotAliases s
  let fAl := findAllFactsAliases s
  let tags := findAllHashtags s
  { hasUserFilter := searchUserFilter s
    hasDepotTable := searchDepotTable s
    hasHashtags := searchHashtags s
    isSelectQuery := (("SELECT").toList).isPrefixOf (upS s)
    hasWhereClause := scanB (kwIsoStep (("WHERE").toList)) none s
    hasJoinDepot := scanB (kwPairStep (("JOIN").toList) (("DEPOT").toList)) none s
    depotAliases := dAl
    factsAliases := fAl
    hasDepotAlias := decide (0 < dAl.length)
    hasFactsAlias := decide (0 < fAl.length)
    foundHashtags := tags
    hasDepotHashtag := tags.any (fun t => (("DEPOT_").toList).isPrefixOf t)
    hasFactsHashtag := tags.any (fun t => (("FACTS_").toList).isPrefixOf t)
    hasPeriodeHashtag := tags.any (fun t => t == ("PERIODE").toList) }

/-- `ValidationService.validate_framework`; `none` models the
`ValidationError` raised on an empty argument. -/
def validateFramework (sql : Str) : Option (Bool × Str × FrameworkElements) :=
  if sql = [] then none
  else
    let s := pstrip sql
    let e := analyzeFrameworkElements s
    let missing : List Str :=
      (if e.hasUserFilter then [] else [("filtre WHERE [alias].ID_USER = ?").toList]) ++
      (if e.hasDepotTable then [] else [("table DEPOT").toList]) ++
      (if e.hasHashtags then [] else [("hashtags (#DEPOT_alias#)").toList]) ++
      (if e.isSelectQuery then [] else [("requête SELECT uniquement").toList])
    if missing = [] then
      some (true, ("Requête conforme au framework obligatoire").toList, e)
    else
      some (false, ("Éléments manquants: ").toList ++ List.intercalate ((", ").toList) missing, e)

/-- `ValidationService._add_user_filter`; `none` models the `FrameworkError`
raised when no aliased `DEPOT` occurrence exists. -/
def addUserFilter (s : Str) : Option Str :=
  match findDepotAlias s with
  | none => none
  | some al =>
    let uf := al ++ ((".ID_USER = ?").toList)
    if containsStr (upS s) ((" WHERE ").toList) then
      some (subWhereAll (uf ++ ((" AND ").toList)) none s)
    else if scanB (fun _ u => (groupByMatch u).isSome) none s then
      some (subGroupAll ((" WHERE ").toList ++ uf) s)
    else if scanB (fun _ u => (orderByMatch u).isSome) none s then
      some (subOrdAll ((" WHERE ").toList ++ uf) s)
    else
      some (subEndAll ((" WHERE ").toList ++ uf) s)

/-- `\bPERIODE\b|\bDATE\b|\bMOIS\b|\bANNEE\b` (IGNORECASE). -/
def periodeSearch (s : Str) : Bool :=
  scanB (kwIsoStep (("PERIODE").toList)) none s ||
  scanB (kwIsoStep (("DATE").toList)) none s ||
  scanB (kwIsoStep (("MOIS").toList)) none s ||
  scanB (kwIsoStep (("ANNEE").toList)) none s

/-- `ValidationService._add_hashtags`; `none` models the `FrameworkError`
raised when no tag can be derived. -/
def addHashtags (s : Str) : Option Str :=
  let dT : List Str :=
    match findDepotAlias s with
    | some a => [("#DEPOT_").toList ++ a ++ ("#").toList]
    | none => []
  let fT : List Str :=
    match findFactsAlias s with
    | some a => [("#FACTS_").toList ++ a ++ ("#").toList]
    | none => []
  let pT : List Str := if periodeSearch s then [("#PERIODE#").toList] else []
  let tags := dT ++ fT ++ pT
  if tags = [] then none
  else
    let hs := (" ").toList ++ List.intercalate ((" ").toList) tags
    if (stripR s).getLast? = some ';' then some ((stripR s).dropLast ++ hs ++ [';'])
    else some (s ++ hs)

inductive FixResult where
  | fixed (q : Str)
  | frameworkError (q msg : Str)
  | invalidParam
deriving Repr, DecidableEq

/-- `ValidationService.fix_framework_compliance`: `invalidParam` models the
`ValidationError` on an empty argument, `frameworkError q msg` the
`FrameworkError` raised with query `q` and message `msg`. -/
def fixFrameworkCompliance (sql : Str) : FixResult :=
  if sql = [] then .invalidParam
  else
    let m0 := pstrip sql
    match (if searchUserFilter m0 then some m0 else addUserFilter m0) with
    | none =>
      .frameworkError m0
        (("Impossible d").toList ++ [apoC] ++ ("ajouter le filtre ID_USER: table DEPOT non trouvée").toList)
    | some f1 =>
      match (if searchHashtags f1 then some f1 else addHashtags f1) with
      | none => .frameworkError f1 (("Impossible de déterminer les hashtags appropriés").toList)
      | some f2 =>
        match validateFramework f2 with
        | some (true, _, _) => .fixed f2
        | _ => .frameworkError f2 (("Correction automatique échouée").toList)

/-! ### LLM service (`llm_service.py`) -/

/-- Classification of a provider-call failure.  In `llm_service.py` all
provider failures are raised as plain `ValueError` / `RuntimeError` /
`aiohttp` exceptions; the kind tag records what the failure was (missing
key, HTTP status, network problem) without changing control flow, which
treats them uniformly as generic exceptions. -/
inductive ProviderFailureKind where
  | network
  | auth
  | quota
  | missingKey
  | other
deriving Repr, DecidableEq

structure ProviderFailure where
  kind : ProviderFailureKind
  msg : Str
deriving Repr, DecidableEq

/-- `LLMService.generate_completion` dispatch (lines 39-56): the provider
implementation actually invoked.  An unrecognised name silently falls back
to OpenAI. -/
def dispatchProvider (defaultProvider : Str) (provider : Option Str) : Str :=
  let p := match provider with | none => defaultProvider | some q => q
  if p = ("openai").toList then p
  else if p = ("anthropic").toList then p
  else if p = ("google").toList then p
  else ("openai").toList

/-- `LLMService._clean_sql_response`. -/
def cleanSqlResponse (r : Str) : Str :=
  let r2 :=
    if (("```sql").toList).isPrefixOf r then
      let r1 := r.drop 6
      if (("```").toList).isSuffixOf r1 then r1.take (r1.length - 3) else r1
    else if (("```").toList).isPrefixOf r then
      let r1 := r.drop 3
      if (("```").toList).isSuffixOf r1 then r1.take (r1.length - 3) else r1
    else r
  pstrip r2

/-- `LLMService.check_relevance`: relevance is `"OUI" in response.upper()`;
its `except Exception` handler swallows every provider failure and returns
`True` ("consider relevant by default"). -/
def LLMcheckRelevance (out : Except ProviderFailure Str) : Bool :=
  match out with
  | .ok s => containsStr (upS s) (("OUI").toList)
  | .error _ => true

/-- `LLMService.validate_sql_semantically`: sentinel mapping on the response;
its `except Exception` handler converts a provider failure into
`(False, "Impossible de valider la requête: ...")`. -/
def validateSqlSemantically (out : Except ProviderFailure Str) : Bool × Str :=
  match out with
  | .ok s =>
    let su := upS s
    if containsStr su (("HORS SUJET").toList) then
      (false, ("Cette demande ne concerne pas une requête SQL sur cette base de données.").toList)
    else if containsStr su (("OUI").toList) then
      (true, ("La requête SQL correspond bien à votre demande et est compatible avec le schéma.").toList)
    else if containsStr su (("NON").toList) then
      (false, ("La requête SQL pourrait ne pas correspondre parfaitement à votre demande.").toList)
    else
      (true, ("La requête SQL semble correspondre à votre demande.").toList)
  | .error e => (false, ("Impossible de valider la requête: ").toList ++ e.msg)

/-- `LLMService.generate_sql`: post-process the completion; provider
exceptions re-raise unchanged. -/
def generateSql (out : Except ProviderFailure Str) : Except ProviderFailure Str :=
  match out with
  | .ok s => .ok (cleanSqlResponse s)
  | .error e => .error e

/-- `ValidationService.validate_semantics`.  The body calls
`LLMService.validate_sql_semantically(..., context=validation_context)`,
but `validate_sql_semantically` has no `context` parameter, so the call
raises `TypeError` before any provider work; the surrounding
`except Exception` catches it and returns
`(True, "Validation sémantique ignorée due à une erreur LLM")` on every
call.  The provider outcome is therefore never consulted.  `none` models
the `ValidationError` raised on empty arguments (before the `try`). -/
def validateSemantics (_out : Except ProviderFailure Str) (sqlQuery origReq : Str) :
    Option (Bool × Str) :=
  if sqlQuery = [] ∨ origReq = [] then none
  else some (true, ("Validation sémantique ignorée due à une erreur LLM").toList)

/-! ### `ValidationService.validate_complete` -/

structure FrameworkDetail where
  compliant : Bool
  message : Str
  elements : FrameworkElements
deriving Repr, DecidableEq

structure VCResult where
  originalQuery : Str
  finalQuery : Str
  valid : Bool
  message : Str
  corrected : Bool
  autoFixApplied : Bool
  syntaxDetail : Option (Bool × Option Str)
  securityDetail : Option (Bool × Str)
  frameworkDetail : Option FrameworkDetail
  semanticDetail : Option (Bool × Str)
deriving Repr, DecidableEq

/-- Python truthiness of an optional string. -/
def optTruthy : Option Str → Bool
  | none => false
  | some s => !(s.isEmpty)

/-- Message of the unreachable `except Exception` branch of
`validate_complete` (kept for totality of the model). -/
def vcExcMsg : Str := ("Erreur lors de la validation: erreur interne").toList

/-- Tail of `validate_complete` after the framework stage: framework
failure check, then optional semantic validation, then success. -/
def vcFinish (semOut : Except ProviderFailure Str) (origReq schema : Option Str)
    (b : VCResult) (fc : Bool) (fmsg : Str) : VCResult :=
  if !fc then { b with message := ("Erreur de framework: ").toList ++ fmsg }
  else if optTruthy origReq && optTruthy schema then
    match validateSemantics semOut b.finalQuery (origReq.getD []) with
    | none => { b with message := vcExcMsg }
    | some (v, m) =>
      let b2 := { b with semanticDetail := some (v, m) }
      if !v then { b2 with message := ("Erreur sémantique: ").toList ++ m }
      else { b2 with valid := true, message := ("Validation complète réussie").toList }
  else { b with valid := true, message := ("Validation complète réussie").toList }

/-- `str(e)` for a `FrameworkError` raised with message `m`
(`ValidationError.__init__` composition in `exceptions.py`). -/
def frameworkErrStr (m : Str) : Str :=
  ("Validation échouée: Framework non respecté: ").toList ++ m ++ (" (champ: sql_query)").toList

/-- `ValidationService.validate_complete` (syntax → security → framework →
single auto-fix pass → re-validation → optional semantic check). -/
def validateComplete (semOut : Except ProviderFailure Str) (sqlQuery : Str)
    (origReq schema : Option Str) (autoFix : Bool) : VCResult :=
  let b0 : VCResult :=
    { originalQuery := sqlQuery, finalQuery := sqlQuery, valid := false, message := [],
      corrected := false, autoFixApplied := false, syntaxDetail := none,
      securityDetail := none, frameworkDetail := none, semanticDetail := none }
  match validateSqlSyntax sqlQuery with
  | none => { b0 with message := vcExcMsg }
  | some (sv, sm) =>
    let b1 := { b0 with syntaxDetail := some (sv, sm) }
    if !sv then { b1 with message := ("Erreur de syntaxe: ").toList ++ sm.getD [] }
    else
      match validateSecurity sqlQuery with
      | none => { b1 with message := vcExcMsg }
      | some (ss, ssm) =>
        let b2 := { b1 with securityDetail := some (ss, ssm) }
        if !ss then { b2 with message := ("Erreur de sécurité: ").toList ++ ssm }
        else
          match validateFramework sqlQuery with
          | none => { b2 with message := vcExcMsg }
          | some (fc0, fmsg0, fels0) =>
            let b3 := { b2 with frameworkDetail := some ⟨fc0, fmsg0, fels0⟩ }
            if !fc0 && autoFix then
              match fixFrameworkCompliance sqlQuery with
              | .fixed q =>
                match validateFramework q with
                | some (fc2, fmsg2, _) =>
                  let b4 :=
                    { b3 with
                      finalQuery := q
                      corrected := true
                      autoFixApplied := true
                      frameworkDetail :=
                        some ⟨fc2, ("Corrigé automatiquement: ").toList ++ fmsg2, fels0⟩ }
                  vcFinish semOut origReq schema b4 fc2 fmsg2
                | none => { b3 with message := vcExcMsg }
              | .frameworkError _ m =>
                { b3 with message :=
                    ("Erreur de framework (correction échouée): ").toList ++ frameworkErrStr m }
              | .invalidParam => { b3 with message := vcExcMsg }
            else
              vcFinish semOut origReq schema b3 fc0 fmsg0

/-! ### Vector search (`vector_search.py`) and the exact-match gate -/

structure SQMeta where
  texteComplet : Option Str
  requete : Option Str
  requetes : Option Str
deriving Repr, DecidableEq

structure SimilarQuery where
  score : Rat
  metadata : SQMeta
  id : Str
deriving Repr, DecidableEq

/-- Python `a or b` on optional strings (empty string is falsy). -/
def pyOrOpt (a b : Option Str) : Option Str :=
  match a with
  | some s => if s = [] then b else some s
  | none => b

/-- Python `a or b` where `b` is a plain string default. -/
def pyOrS (a : Option Str) (b : Str) : Str :=
  match a with
  | some s => if s = [] then b else s
  | none => b

/-- `vector_search.check_exact_match`; `Except.error` models the
`VectorSearchError` raised on an out-of-range threshold. -/
def checkExactMatchVS (similars : List SimilarQuery) (threshold : Rat) :
    Except Unit (Option Str) :=
  if threshold < 0 ∨ threshold > 1 then .error ()
  else
    match similars with
    | [] => .ok none
    | top :: _ =>
      if top.score > threshold then
        match pyOrOpt top.metadata.requete top.metadata.requetes with
        | some s => if s ≠ [] ∧ pstrip s ≠ [] then .ok (some (pstrip s)) else .ok none
        | none => .ok none
      else .ok none

/-- `TranslationService._check_exact_match`: exact-match lookup plus the
first-year anti-staleness comparison; any error is caught and treated as
"no match". -/
def tsCheckExactMatch (query : Str) (similars : List SimilarQuery) (threshold : Rat) :
    Option Str :=
  match checkExactMatchVS similars threshold with
  | .error _ => none
  | .ok none => none
  | .ok (some em) =>
    let userYears := findYears query
    let sqlYears := findYears em
    if userYears ≠ [] ∧ sqlYears ≠ [] ∧ userYears.head? ≠ sqlYears.head? then none
    else some em

/-! ### The translation pipeline (`translation_service.py`) -/

inductive Status where
  | processing
  | success
  | warning
  | error
deriving Repr, DecidableEq

structure SimpleSimilar where
  score : Rat
  query : Str
  sql : Str
deriving Repr, DecidableEq

structure DetailSimilar where
  score : Rat
  texteComplet : Str
  requete : Str
  id : Str
deriving Repr, DecidableEq

/-- `round(x, 4)` (floats approximated by rationals; half rounds up). -/
def round4 (x : Rat) : Rat := mkRat (x * 10000 + mkRat 1 2).floor 10000

structure TransResult where
  query : Str
  sql : Option Str
  valid : Option Bool
  validationMessage : Option Str
  explanation : Option Str
  isExactMatch : Bool
  status : Status
  processingTime : Option Rat
  similarQueries : Option (List SimpleSimilar)
  similarQueriesDetails : Option (List DetailSimilar)
  fromCache : Bool
  frameworkCompliant : Bool
  frameworkDetails : Option FrameworkDetail
  provider : Str
  model : Option Str
deriving Repr, DecidableEq

structure Config where
  defaultProvider : Str
  exactMatchThreshold : Rat
  schemaPath : Str
deriving Repr, DecidableEq

inductive LoadFailure where
  | fileNotFound
  | loadError (msg : Str)
deriving Repr, DecidableEq

/-- Oracle outcomes of the awaited collaborator calls made by one
`translate` run. -/
structure PipelineEnv where
  relevanceCall : Except ProviderFailure Str
  schemaLoad : Except LoadFailure Str
  embeddingCall : Except Str Unit
  searchCall : Except Str (List SimilarQuery)
  generationCall : Except ProviderFailure Str
  semanticCall : Except ProviderFailure Str
  explainCall : Except ProviderFailure Str
  elapsed : Rat

structure Request where
  userQuery : Str
  schemaPath : Option Str
  validate : Bool
  explain : Bool
  storeResult : Bool
  returnSimilarQueries : Bool
  userIdPlaceholder : Str
  useCache : Bool
  provider : Option Str
  model : Option Str
  includeSimilarDetails : Bool
deriving Repr, DecidableEq

/-- `TranslationService._init_translation_result`. -/
def initTranslationResult (cfg : Config) (q : Str) (provider model : Option Str) : TransResult :=
  { query := q, sql := none, valid := none, validationMessage := none, explanation := none,
    isExactMatch := false, status := .processing, processingTime := none,
    similarQueries := none, similarQueriesDetails := none, fromCache := false,
    frameworkCompliant := false, frameworkDetails := none,
    provider := pyOrS provider cfg.defaultProvider, model := model }

/-- `on\w+\s*=` (IGNORECASE) anchored, for the suspicious-input patterns. -/
def onAttrStep (u : Str) : Bool :=
  match eatLitU (("ON").toList) u with
  | some (_, r) =>
    match wordRun1 r with
    | some (_, _, r2) =>
      match dropWS r2 with
      | '=' :: _ => true
      | _ => false
    | none => false
  | none => false

/-- `ValidationService.validate_user_input`. -/
def validateUserInput (userQuery : Str) : Bool × Str :=
  if userQuery = [] then (false, ("La requête doit être une chaîne non vide").toList)
  else
    let q := pstrip userQuery
    if q.length < 3 then (false, ("La requête doit contenir au moins 3 caractères").toList)
    else if q.length > 1000 then (false, ("La requête ne peut pas dépasser 1000 caractères").toList)
    else if containsStr (upS q) (("<SCRIPT").toList) ||
        containsStr (upS q) (("JAVASCRIPT:").toList) ||
        containsStr (upS q) (("DATA:").toList) ||
        containsStr (upS q) (("VBSCRIPT:").toList) ||
        scanB (fun _ u => onAttrStep u) none q then
      (false, ("La requête contient des caractères suspects").toList)
    else (true, ("Entrée utilisateur valide").toList)

/-- The `forbidden_operations` of `TranslationService` (lower-case substring
test on the user question). -/
def forbiddenOps : List Str :=
  [("insert").toList, ("update").toList, ("delete").toList, ("drop").toList,
   ("truncate").toList, ("alter").toList, ("create").toList]

def forbiddenOpFound (q : Str) : Option Str :=
  forbiddenOps.find? (fun op => containsStr (lowS q) op)

/-- `TranslationService._validate_user_input`. -/
def tsValidateUserInput (userQuery : Str) (r : TransResult) : TransResult :=
  let p := validateUserInput userQuery
  if !p.1 then { r with status := .error, validationMessage := some p.2 }
  else
    match forbiddenOpFound userQuery with
    | some op =>
      { r with
        status := .error
        validationMessage := some
          (("Opération ").toList ++ [apoC] ++ upS op ++ [apoC] ++
           (" non autorisée. Seules les requêtes de consultation (SELECT) sont permises.").toList) }
    | none => r

/-- Abort message of `TranslationService._check_relevance`. -/
def relevanceAbortMsg : Str :=
  ("Cette requête ne semble pas concerner les ressources humaines. Cette base de données contient uniquement des informations RH (employés, contrats, absences, paie, etc.).").toList

/-- `TranslationService._check_relevance`.  `LLMService.check_relevance`
never raises (it swallows every exception and returns `True`), so the
`except LLMAuthError / LLMQuotaError / LLMNetworkError / LLMError` branches
of the orchestrator are unreachable and only the "not relevant" abort can
fire. -/
def tsCheckRelevance (out : Except ProviderFailure Str) (r : TransResult) : TransResult :=
  if LLMcheckRelevance out then r
  else { r with status := .error, validationMessage := some relevanceAbortMsg }

/-- `TranslationService._format_similar_queries_detailed`. -/
def formatSimilarDetailed (sqs : List SimilarQuery) : Option (List DetailSimilar) :=
  if sqs = [] then none
  else some (sqs.map (fun q =>
    { score := round4 q.score, texteComplet := (q.metadata.texteComplet).getD [],
      requete := (q.metadata.requete).getD [], id := q.id }))

/-- `TranslationService._format_similar_queries_simple`. -/
def formatSimilarSimple (sqs : List SimilarQuery) : Option (List SimpleSimilar) :=
  if sqs = [] then none
  else some (sqs.map (fun q =>
    { score := round4 q.score, query := (q.metadata.texteComplet).getD [],
      sql := (q.metadata.requete).getD [] }))

/-- `TranslationService._format_similar_queries_response`. -/
def formatSimilarResponse (req : Request) (sqs : List SimilarQuery) (r : TransResult) :
    TransResult :=
  let r1 :=
    if req.includeSimilarDetails then { r with similarQueriesDetails := formatSimilarDetailed sqs }
    else r
  if req.returnSimilarQueries then { r1 with similarQueries := formatSimilarSimple sqs }
  else r1

/-- `TranslationService._handle_exact_match`: the exact-match candidate is
validated (with auto-fix) through `validate_complete` with no
original-request/schema, so its semantic stage is skipped. -/
def handleExactMatch (semOut : Except ProviderFailure Str) (em : Str) (r : TransResult) :
    TransResult :=
  let vc := validateComplete semOut em none none true
  if !vc.valid then
    { r with
      status := .error
      validationMessage := some (("Correspondance exacte non conforme: ").toList ++ vc.message) }
  else
    { r with
      sql := some vc.finalQuery
      valid := some true
      validationMessage := some
        (("Requête trouvée directement dans la base de connaissances et conforme au framework.").toList)
      isExactMatch := true
      status := .success
      frameworkCompliant := true
      frameworkDetails := vc.frameworkDetail }

/-- `str(e)` of the `TypeError` raised by the call
`LLMService.generate_sql(..., context=context)` in `_generate_new_sql`
(`generate_sql` has no `context` parameter).  The exact wording is
interpreter-version-dependent; nothing below depends on it. -/
def generateSqlTypeErrorMsg : Str :=
  ("LLMService.generate_sql() got an unexpected keyword argument ").toList ++
    [apoC] ++ ("context").toList ++ [apoC]

/-- `TranslationService._generate_new_sql`.  The call passes
`context=context` to `LLMService.generate_sql`, which has no such
parameter, so `TypeError` is raised at the call site before any provider
work.  The local handlers catch only `LLMAuthError`/`LLMQuotaError`/
`LLMNetworkError`/`LLMError`, so the `TypeError` propagates to
`translate`'s outer `except Exception` handler (modelled by `Except.error`
carrying `str(e)`): the sentinel (`IMPOSSIBLE` / `READONLY_VIOLATION`) and
success branches after the call are unreachable and generation never sets
`sql` or status `success`.  The provider outcome is never consulted. -/
def generateNewSql (_genOut : Except ProviderFailure Str) (_r : TransResult) :
    Except Str TransResult :=
  .error generateSqlTypeErrorMsg

/-- Python truthiness of the `sql` field. -/
def sqlTruthy : Option Str → Bool
  | none => false
  | some s => !(s.isEmpty)

/-- `TranslationService._perform_complete_validation`. -/
def performCompleteValidation (semOut : Except ProviderFailure Str)
    (userQuery schema : Str) (r : TransResult) : TransResult :=
  let vc := validateComplete semOut (r.sql.getD []) (some userQuery) (some schema) true
  let msg := vc.message ++
    (if vc.autoFixApplied then (" (Requête corrigée automatiquement)").toList else [])
  let r2 :=
    { r with
      sql := some vc.finalQuery
      valid := some vc.valid
      validationMessage := some msg
      frameworkCompliant := (match vc.frameworkDetail with
        | some fd => fd.compliant
        | none => false)
      frameworkDetails := vc.frameworkDetail }
  if !vc.valid then { r2 with status := .error } else r2

/-- `TranslationService._generate_explanation`.  The call passes
`context=context` to `LLMService.explain_sql`, which has no such
parameter, so `TypeError` is raised before any provider work; it is not an
`LLM*Error`, so the generic `except Exception` branch fires and sets
`explanation` to `"Explication non disponible."` on every call.  The
provider outcome and the LLM-specific fallback message are never used. -/
def generateExplanation (_out : Except ProviderFailure Str) (r : TransResult) : TransResult :=
  { r with explanation := some (("Explication non disponible.").toList) }

/-- `TranslationService._finalize_result` (run in the `finally` block). -/
def finalizeResult (elapsed : Rat) (r : TransResult) : TransResult :=
  let r1 := { r with processingTime := some elapsed }
  if r1.status = .processing then
    if sqlTruthy r1.sql && !(r1.valid = some false) then { r1 with status := .success }
    else { r1 with status := .error }
  else r1

/-- Schema-stage error message (`TranslationService._load_schema`). -/
def schemaFailMsg (cfg : Config) (req : Request) : LoadFailure → Str
  | .fileNotFound =>
    ("Fichier de schéma introuvable: ").toList ++
      (match req.schemaPath with | some p => p | none => cfg.schemaPath)
  | .loadError m => ("Erreur de chargement du schéma: ").toList ++ m

/-- The body of `TranslationService.translate` (the `try` block): stages 1-9
with the early returns on `status == "error"`, the exact-match /
generation branch, validation, and explanation.  Result storage (stage 10)
is best-effort and leaves the result record unchanged. -/
def translateCore (cfg : Config) (env : PipelineEnv) (req : Request) : TransResult :=
  let r0 := initTranslationResult cfg req.userQuery req.provider req.model
  let r1 := tsValidateUserInput req.userQuery r0
  if r1.status = .error then r1
  else
    let r2 := tsCheckRelevance env.relevanceCall r1
    if r2.status = .error then r2
    else
      match env.schemaLoad with
      | .error lf =>
        { r2 with status := .error, validationMessage := some (schemaFailMsg cfg req lf) }
      | .ok schema =>
        match env.embeddingCall with
        | .error m =>
          { r2 with
            status := .error
            validationMessage := some (("Erreur du service de vectorisation: ").toList ++ m) }
        | .ok _ =>
          match env.searchCall with
          | .error m =>
            { r2 with
              status := .error
              validationMessage := some (("Erreur du service de recherche: ").toList ++ m) }
          | .ok sqs =>
            let r3 := formatSimilarResponse req sqs r2
            let r4res : Except Str TransResult :=
              match tsCheckExactMatch r3.query sqs cfg.exactMatchThreshold with
              | some em => .ok (handleExactMatch env.semanticCall em r3)
              | none => generateNewSql env.generationCall r3
            match r4res with
            | .error emsg =>
              { r3 with
                status := .error
                validationMessage := some (("Erreur interne: ").toList ++ emsg) }
            | .ok r4 =>
              let r8 :=
                if req.validate && sqlTruthy r4.sql then
                  performCompleteValidation env.semanticCall req.userQuery schema r4
                else r4
              if req.explain && sqlTruthy r8.sql && !(r8.status = .error) then
                generateExplanation env.explainCall r8
              else r8

/-- `TranslationService.translate`: the try-block body followed by the
guaranteed finalisation. -/
def translate (cfg : Config) (env : PipelineEnv) (req : Request) : TransResult :=
  finalizeResult env.elapsed (translateCore cfg env req)

/-! ### Cache decorator (`cache_decorator.py`) -/

/-- One pass through the `cache_service_method` wrapper around `translate`:
given the global cache switch, the request's `use_cache` / `store_result`
keyword arguments, the cached value for the derived key (if any) and the
computed result, returns the value handed back to the caller and the value
written to the cache (if any).  Cache get/set failures degrade to the
`cached = none` / no-write behaviour already covered by these arguments. -/
def cacheServiceMethod (cacheEnabled useCacheArg storeResultArg : Bool)
    (cached : Option TransResult) (computed : TransResult) :
    TransResult × Option TransResult :=
  if !cacheEnabled || !useCacheArg then
    ({ computed with fromCache := false }, none)
  else
    match cached with
    | some c => ({ c with fromCache := true }, none)
    | none =>
      if computed.status = .success && storeResultArg then
        let rr := { computed with fromCache := false }
        (rr, some rr)
      else
        ({ computed with fromCache := false }, none)

/-! ### `TranslationService.validate_translation_request` -/

def validProvidersList : List Str :=
  [("openai").toList, ("anthropic").toList, ("google").toList]

/-- `TranslationService.validate_translation_request` on the request fields
it inspects: `query`, the `provider` entry (`none` = key absent,
`some none` = key present with `None`), and the `user_id_placeholder`
entry. -/
def validateTranslationRequest (query : Str) (providerField : Option (Option Str))
    (placeholderField : Option Str) : Bool × Str :=
  if query = [] then
    (false, ("Champ ").toList ++ [apoC] ++ ("query").toList ++ [apoC] ++
      (" obligatoire manquant").toList)
  else
    let p := validateUserInput query
    if !p.1 then (false, ("Requête invalide: ").toList ++ p.2)
    else
      let provOk : Bool :=
        match providerField with
        | none => true
        | some (some pr) => decide (pr ∈ validProvidersList)
        | some none => false
      if !provOk then
        (false, ("Provider invalide. Valides: [").toList ++ [apoC] ++ ("openai").toList ++
          [apoC] ++ (", ").toList ++ [apoC] ++ ("anthropic").toList ++ [apoC] ++
          (", ").toList ++ [apoC] ++ ("google").toList ++ [apoC] ++ ("]").toList)
      else
        match placeholderField with
        | some ph =>
          if ph = [] then (false, ("user_id_placeholder doit être une chaîne non vide").toList)
          else (true, ("Requête valide").toList)
        | none => (true, ("Requête valide").toList)

/-! ### Concrete fixtures used by the claim theorems -/

def cfgStd : Config :=
  { defaultProvider := ("openai").toList
    exactMatchThreshold := mkRat 95 100
    schemaPath := ("/app/schema.sql").toList }

/-- A benign environment: every collaborator call succeeds and the vector
search returns a high-scoring exact-match candidate (the exact-match path
is the only one that can reach `success`, since the generation call always
raises the `context=` `TypeError`). -/
def envStd : PipelineEnv :=
  { relevanceCall := .ok (("OUI").toList)
    schemaLoad := .ok (("le schema RH").toList)
    embeddingCall := .ok ()
    searchCall := .ok
      [{ score := mkRat 97 100
         metadata :=
           { texteComplet := some (("Nombre de salaries en CDI").toList)
             requete := some (("SELECT d.A FROM DEPOT d WHERE d.ID_USER = ? #DEPOT_d#").toList)
             requetes := none }
         id := ("q0").toList }]
    generationCall := .ok (("SELECT d.A FROM DEPOT d").toList)
    semanticCall := .ok (("OUI").toList)
    explainCall := .ok (("Une explication simple.").toList)
    elapsed := 0 }

def reqStd (v ex : Bool) : Request :=
  { userQuery := ("Nombre de salaries en CDI").toList
    schemaPath := none
    validate := v
    explain := ex
    storeResult := false
    returnSimilarQueries := false
    userIdPlaceholder := ("?").toList
    useCache := true
    provider := none
    model := none
    includeSimilarDetails := false }

/-- Candidate SQL whose first `20\d{2}` token agrees with the question but
which also contains a different year token. -/
def staleCandidate : Str := ("SELECT d.B FROM DEPOT d WHERE annee=2024 OR annee=2025").toList

def staleSimilars : List SimilarQuery :=
  [{ score := mkRat 97 100
     metadata := { texteComplet := none, requete := some staleCandidate, requetes := none }
     id := ("q1").toList }]

/-- Candidate SQL whose first year token (2023) differs from the
question's first year token (2024). -/
def oldYearSimilars : List SimilarQuery :=
  [{ score := mkRat 97 100
     metadata :=
       { texteComplet := none
         requete := some (("SELECT d.B FROM DEPOT d WHERE annee=2023").toList)
         requetes := none }
     id := ("q1").toList }]

/-- A concrete `success` translation result (cache-wrapper fixture). -/
def trSuccess : TransResult :=
  { query := ("Nombre de salaries en CDI").toList
    sql := some (("SELECT d.A FROM DEPOT d WHERE d.ID_USER = ? #DEPOT_d#").toList)
    valid := some true
    validationMessage := some (("Validation complète réussie").toList)
    explanation := none
    isExactMatch := false
    status := .success
    processingTime := some 0
    similarQueries := none
    similarQueriesDetails := none
    fromCache := false
    frameworkCompliant := true
    frameworkDetails := none
    provider := ("openai").toList
    model := none }

/-- Invariant carried by the translation pipeline: the record is an error
record or a success record with non-null `sql`, `valid = true` and
`framework_compliant = true`; and any SQL the record carries (success or
error alike) is reported compliant by `validate_framework`.  Both parts
hold regardless of the request's `validate` flag, because the only stage
that ever sets `sql` is the exact-match handler, which always validates. -/
def GoodResult (r : TransResult) : Prop :=
  (r.status = Status.error ∨
    (r.status = Status.success ∧ r.sql.isSome = true ∧ r.valid = some true ∧
      r.frameworkCompliant = true)) ∧
  (∀ q, r.sql = some q → ∃ m e, validateFramework q = some (true, m, e))

/-! ### Decomposition facts about the anchored matchers -/

theorem eatLitU_decomp :
    ∀ lit u con rest, eatLitU lit u = some (con, rest) →
      u = con ++ rest ∧ con.length = lit.length := by
  intro lit
  induction lit with
  | nil =>
    intro u con rest h
    simp only [eatLitU] at h
    cases h; simp
  | cons l ls ih =>
    intro u con rest h
    cases u with
    | nil => simp [eatLitU] at h
    | cons c cs =>
      simp only [eatLitU] at h
      by_cases hc : c.toUpper == l
      · rw [if_pos hc] at h
        cases hee : eatLitU ls cs with
        | none => rw [hee] at h; exact absurd h (by simp)
        | some p =>
          rw [hee] at h
          cases h
          obtain ⟨h1, h2⟩ := ih cs p.1 p.2 hee
          constructor
          · simp [h1]
          · simp [h2]
      · rw [if_neg hc] at h; exact absurd h (by simp)

theorem wsRun1_decomp :
    ∀ u run l rest, wsRun1 u = some (run, l, rest) →
      u = run ++ rest ∧ run ≠ [] := by
  intro u
  induction u with
  | nil => intro run l rest h; simp [wsRun1] at h
  | cons c cs ih =>
    intro run l rest h
    simp only [wsRun1] at h
    by_cases hc : isWS c
    · rw [if_pos hc] at h
      cases hr : wsRun1 cs with
      | none =>
        rw [hr] at h; cases h
        constructor
        · simp
        · simp
      | some p =>
        rw [hr] at h; cases h
        obtain ⟨h1, h2⟩ := ih p.1 p.2.1 p.2.2 (by rw [hr])
        constructor
        · simp [h1]
        · simp
    · rw [if_neg hc] at h; exact absurd h (by simp)

theorem wordRun1_decomp :
    ∀ u run l rest, wordRun1 u = some (run, l, rest) →
      u = run ++ rest ∧ run ≠ [] := by
  intro u
  induction u with
  | nil => intro run l rest h; simp [wordRun1] at h
  | cons c cs ih =>
    intro run l rest h
    simp only [wordRun1] at h
    by_cases hc : isWordChar c
    · rw [if_pos hc] at h
      cases hr : wordRun1 cs with
      | none =>
        rw [hr] at h; cases h
        constructor
        · simp
        · simp
      | some p =>
        rw [hr] at h; cases h
        obtain ⟨h1, h2⟩ := ih p.1 p.2.1 p.2.2 (by rw [hr])
        constructor
        · simp [h1]
        · simp
    · rw [if_neg hc] at h; exact absurd h (by simp)

theorem whereMatch_decomp :
    whereMatch prev u = some (m, l, rest) → u = m ++ rest ∧ m ≠ [] := by
  intro h
  unfold whereMatch at h
  split at h
  · split at h
    · rename_i w5 r1 he
      split at h
      · rename_i run l2 rest2 hw
        obtain ⟨h1, _⟩ := eatLitU_decomp _ _ _ _ he
        obtain ⟨h3, h4⟩ := wsRun1_decomp _ _ _ _ hw
        injection h with h5
        injection h5 with ha hb2
        injection hb2 with hb3 hb4
        subst ha hb4
        refine ⟨by rw [h1, h3]; simp, ?_⟩
        intro hcon
        simp only [List.append_eq_nil] at hcon
        exact h4 hcon.2
      · exact absurd h (by simp)
    · exact absurd h (by simp)
  · exact absurd h (by simp)

theorem whereMatch_rest_lt :
    whereMatch prev u = some (m, l, rest) → rest.length < u.length := by
  intro h
  obtain ⟨h1, h2⟩ := whereMatch_decomp h
  rw [h1]
  cases hm : m with
  | nil => exact absurd hm h2
  | cons a b =>
    simp only [List.length_append, List.length_cons]
    omega

theorem groupByMatch_decomp :
    groupByMatch u = some (m, rest) → u = m ++ rest ∧ m ≠ [] := by
  intro h
  unfold groupByMatch at h
  split at h
  · rename_i r1 x1 u1 h1
    split at h
    · rename_i g u2 h2
      split at h
      · rename_i r2 x3 u3 h3
        split at h
        · rename_i b u4 h4
          obtain ⟨d1, e1⟩ := wsRun1_decomp _ _ _ _ h1
          obtain ⟨d2, _⟩ := eatLitU_decomp _ _ _ _ h2
          obtain ⟨d3, _⟩ := wsRun1_decomp _ _ _ _ h3
          obtain ⟨d4, _⟩ := eatLitU_decomp _ _ _ _ h4
          injection h with h5
          injection h5 with ha hb2
          subst ha hb2
          refine ⟨by rw [d1, d2, d3, d4]; simp, ?_⟩
          intro hcon
          simp only [List.append_eq_nil] at hcon
          exact e1 hcon.1.1.1
        · exact absurd h (by simp)
      · exact absurd h (by simp)
    · exact absurd h (by simp)
  · exact absurd h (by simp)

theorem groupByMatch_rest_lt :
    groupByMatch u = some (m, rest) → rest.length < u.length := by
  intro h
  obtain ⟨h1, h2⟩ := groupByMatch_decomp h
  rw [h1]
  cases hm : m with
  | nil => exact absurd hm h2
  | cons a b =>
    simp only [List.length_append, List.length_cons]
    omega

theorem orderByMatch_decomp :
    orderByMatch u = some (m, rest) → u = m ++ rest ∧ m ≠ [] := by
  intro h
  unfold orderByMatch at h
  split at h
  · rename_i r1 x1 u1 h1
    split at h
    · rename_i g u2 h2
      split at h
      · rename_i r2 x3 u3 h3
        split at h
        · rename_i b u4 h4
          obtain ⟨d1, e1⟩ := wsRun1_decomp _ _ _ _ h1
          obtain ⟨d2, _⟩ := eatLitU_decomp _ _ _ _ h2
          obtain ⟨d3, _⟩ := wsRun1_decomp _ _ _ _ h3
          obtain ⟨d4, _⟩ := eatLitU_decomp _ _ _ _ h4
          injection h with h5
          injection h5 with ha hb2
          subst ha hb2
          refine ⟨by rw [d1, d2, d3, d4]; simp, ?_⟩
          intro hcon
          simp only [List.append_eq_nil] at hcon
          exact e1 hcon.1.1.1
        · exact absurd h (by simp)
      · exact absurd h (by simp)
    · exact absurd h (by simp)
  · exact absurd h (by simp)

theorem orderByMatch_rest_lt :
    orderByMatch u = some (m, rest) → rest.length < u.length := by
  intro h
  obtain ⟨h1, h2⟩ := orderByMatch_decomp h
  rw [h1]
  cases hm : m with
  | nil => exact absurd hm h2
  | cons a b =>
    simp only [List.length_append, List.length_cons]
    omega

/-! ### Facts about stripping -/

theorem dropWS_dropWS (s : Str) : dropWS (dropWS s) = dropWS s := by
  induction s with
  | nil => rfl
  | cons c t ih =>
    unfold dropWS at *
    by_cases h : isWS c = true
    · rw [List.dropWhile_cons, if_pos h]
      exact ih
    · rw [List.dropWhile_cons, if_neg h, List.dropWhile_cons, if_neg h]

theorem dropWhile_isSuffix (p : Char → Bool) (l : Str) : l.dropWhile p <:+ l := by
  induction l with
  | nil => exact List.suffix_refl _
  | cons c t ih =>
    rw [List.dropWhile_cons]
    by_cases h : p c = true
    · rw [if_pos h]
      exact ih.trans (List.suffix_cons c t)
    · rw [if_neg h]

theorem stripR_prefix (s : Str) : stripR s <+: s := by
  obtain ⟨t, ht⟩ := dropWhile_isSuffix (fun c => isWS c) s.reverse
  refine ⟨t.reverse, ?_⟩
  calc stripR s ++ t.reverse
      = (t ++ (s.reverse.dropWhile (fun c => isWS c))).reverse := by
        rw [List.reverse_append]
        rfl
    _ = s.reverse.reverse := by rw [ht]
    _ = s := List.reverse_reverse s

theorem dropWS_stripR (s : Str) (h : dropWS s = s) : dropWS (stripR s) = stripR s := by
  cases hs : stripR s with
  | nil => rfl
  | cons d ds =>
    obtain ⟨t, ht⟩ := stripR_prefix s
    rw [hs] at ht
    have hd : isWS d = false := by
      by_cases hw : isWS d = true
      · exfalso
        rw [← ht, List.cons_append] at h
        unfold dropWS at h
        rw [List.dropWhile_cons, if_pos hw] at h
        have hl := congrArg List.length h
        have hle := (dropWhile_isSuffix (fun c => isWS c) (ds ++ t)).length_le
        simp only [List.length_cons] at hl
        omega
      · exact Bool.eq_false_iff.mpr hw
    unfold dropWS
    rw [List.dropWhile_cons, if_neg (by rw [hd]; exact Bool.false_ne_true)]

theorem stripR_stripR (s : Str) : stripR (stripR s) = stripR s := by
  unfold stripR
  rw [List.reverse_reverse, dropWS_dropWS]

theorem pstrip_idem (s : Str) : pstrip (pstrip s) = pstrip s := by
  unfold pstrip
  rw [dropWS_stripR (dropWS s) (dropWS_dropWS s), stripR_stripR]

theorem eatLitU_upS :
    ∀ lit u con rest, eatLitU lit u = some (con, rest) → upS con = lit := by
  intro lit
  induction lit with
  | nil =>
    intro u con rest h
    simp only [eatLitU] at h
    cases h
    rfl
  | cons l ls ih =>
    intro u con rest h
    cases u with
    | nil => simp [eatLitU] at h
    | cons c cs =>
      simp only [eatLitU] at h
      by_cases hc : c.toUpper == l
      · rw [if_pos hc] at h
        cases hee : eatLitU ls cs with
        | none => rw [hee] at h; exact absurd h (by simp)
        | some p =>
          rw [hee] at h
          obtain ⟨con2, rest2⟩ := p
          simp only [Option.some.injEq, Prod.mk.injEq] at h
          obtain ⟨h2, h3⟩ := h
          rw [← h2]
          simp only [upS, List.map_cons]
          rw [eq_of_beq hc]
          exact congrArg (List.cons l) (ih cs con2 rest2 hee)
      · rw [if_neg hc] at h
        exact absurd h (by simp)

/-! ### A leading destructive keyword is incompatible with a SELECT query -/

theorem select_head_clash (k v : Str) (hlead : leadKwWs k v = true) (hk : k ≠ [])
    (hsel : (("SELECT").toList).isPrefixOf (upS (pstrip v)) = true) :
    k.head? = some (Char.ofNat 83) := by
  unfold leadKwWs at hlead
  cases he : eatLitU k (dropWS v) with
  | none => rw [he] at hlead; exact absurd hlead (by simp)
  | some p =>
    obtain ⟨con, rest⟩ := p
    obtain ⟨hdv, _⟩ := eatLitU_decomp k (dropWS v) con rest he
    have hup : upS con = k := eatLitU_upS k (dropWS v) con rest he
    have hpre : (("SELECT").toList) <+: upS (pstrip v) :=
      List.isPrefixOf_iff_prefix.mp hsel
    cases hkc : k with
    | nil => exact absurd hkc hk
    | cons a ks =>
      cases hcc : con with
      | nil =>
        rw [hcc, hkc] at hup
        exact absurd hup (by simp [upS])
      | cons b bs =>
        rw [hcc, hkc] at hup
        have hba : b.toUpper = a := by
          simpa [upS] using congrArg List.head? hup
        rw [hcc] at hdv
        have hps : pstrip v <+: dropWS v := stripR_prefix (dropWS v)
        cases hpv : pstrip v with
        | nil =>
          rw [hpv] at hpre
          obtain ⟨t2, ht2⟩ := hpre
          have hlt := congrArg List.length ht2
          rw [List.length_append] at hlt
          simp [upS] at hlt
        | cons d ds =>
          rw [hpv] at hps
          obtain ⟨t, ht⟩ := hps
          rw [hdv] at ht
          have hdb : d = b := by
            simpa using congrArg List.head? ht
          obtain ⟨t2, ht2⟩ := hpre
          rw [hpv] at ht2
          have hdS : d.toUpper = Char.ofNat 83 := by
            have h0 := congrArg List.head? ht2
            simp [upS] at h0
            exact h0.symm
          have ha : a = Char.ofNat 83 := by
            rw [← hba, ← hdb]
            exact hdS
          rw [ha]
          rfl

/-- Framework compliance forces the stripped query to start with SELECT. -/
theorem validateFramework_select (v m : Str) (e : FrameworkElements)
    (h : validateFramework v = some (true, m, e)) :
    (("SELECT").toList).isPrefixOf (upS (pstrip v)) = true := by
  unfold validateFramework at h
  by_cases hv0 : v = []
  · rw [if_pos hv0] at h
    exact absurd h (by simp)
  · rw [if_neg hv0] at h
    dsimp only [] at h
    by_cases hsel : (analyzeFrameworkElements (pstrip v)).isSelectQuery = true
    · exact hsel
    · exfalso
      rw [if_neg hsel] at h
      simp at h

/-- A framework-compliant query never starts with a destructive keyword. -/
theorem not_destrLead_of_compliant (v m : Str) (e : FrameworkElements)
    (h : validateFramework v = some (true, m, e)) :
    destrLead v = false := by
  have hsel := validateFramework_select v m e h
  have f : ∀ k : Str, k ≠ [] → k.head? ≠ some (Char.ofNat 83) → leadKwWs k v = false := by
    intro k hk hkh
    cases hkw : leadKwWs k v
    · rfl
    · exact absurd (select_head_clash k v hkw hk hsel) hkh
  unfold destrLead
  rw [f (("DELETE").toList) (by decide) (by decide),
      f (("DROP").toList) (by decide) (by decide),
      f (("TRUNCATE").toList) (by decide) (by decide),
      f (("ALTER").toList) (by decide) (by decide),
      f (("UPDATE").toList) (by decide) (by decide),
      f (("INSERT").toList) (by decide) (by decide),
      f (("CREATE").toList) (by decide) (by decide)]
  rfl

/-! ### Facts about the complete-validation result -/

theorem vcFinish_finalQuery (so : Except ProviderFailure Str) (o sch : Option Str)
    (b : VCResult) (fc : Bool) (m : Str) :
    (vcFinish so o sch b fc m).finalQuery = b.finalQuery := by
  unfold vcFinish
  split_ifs
  · rfl
  · cases validateSemantics so b.finalQuery (o.getD []) with
    | none => rfl
    | some p =>
      obtain ⟨v2, m2⟩ := p
      dsimp only []
      split_ifs <;> rfl
  · rfl

theorem vcFinish_frameworkDetail (so : Except ProviderFailure Str) (o sch : Option Str)
    (b : VCResult) (fc : Bool) (m : Str) :
    (vcFinish so o sch b fc m).frameworkDetail = b.frameworkDetail := by
  unfold vcFinish
  split_ifs
  · rfl
  · cases validateSemantics so b.finalQuery (o.getD []) with
    | none => rfl
    | some p =>
      obtain ⟨v2, m2⟩ := p
      dsimp only []
      split_ifs <;> rfl
  · rfl

theorem vcFinish_valid_fc (so : Except ProviderFailure Str) (o sch : Option Str)
    (b : VCResult) (fc : Bool) (m : Str) (hb : b.valid = false)
    (h : (vcFinish so o sch b fc m).valid = true) : fc = true := by
  cases hfc : fc
  · exfalso
    unfold vcFinish at h
    rw [hfc] at h
    simp [hb] at h
  · rfl

/-- A valid complete-validation outcome carries a compliant framework detail
and a final query that `validate_framework` reports compliant. -/
theorem vc_valid_spec (so : Except ProviderFailure Str) (s : Str) (o sch : Option Str)
    (a : Bool) (h : (validateComplete so s o sch a).valid = true) :
    (∃ fd, (validateComplete so s o sch a).frameworkDetail = some fd ∧ fd.compliant = true) ∧
    (∃ m e, validateFramework ((validateComplete so s o sch a).finalQuery)
      = some (true, m, e)) := by
  unfold validateComplete at h ⊢
  dsimp only [] at h ⊢
  cases hsyn : validateSqlSyntax s with
  | none =>
    rw [hsyn] at h
    simp at h
  | some p =>
    obtain ⟨sv, sm⟩ := p
    rw [hsyn] at h
    dsimp only [] at h ⊢
    by_cases hsv : (!sv) = true
    · rw [if_pos hsv] at h
      simp at h
    · rw [if_neg hsv] at h ⊢
      cases hsec : validateSecurity s with
      | none =>
        rw [hsec] at h
        simp at h
      | some p2 =>
        obtain ⟨ss, ssm⟩ := p2
        rw [hsec] at h
        dsimp only [] at h ⊢
        by_cases hss : (!ss) = true
        · rw [if_pos hss] at h
          simp at h
        · rw [if_neg hss] at h ⊢
          cases hfw : validateFramework s with
          | none =>
            rw [hfw] at h
            simp at h
          | some p3 =>
            obtain ⟨fc0, p4⟩ := p3
            obtain ⟨fmsg0, fels0⟩ := p4
            rw [hfw] at h
            dsimp only [] at h ⊢
            by_cases hcond : (!fc0 && a) = true
            · rw [if_pos hcond] at h ⊢
              cases hfix : fixFrameworkCompliance s with
              | fixed q =>
                rw [hfix] at h
                dsimp only [] at h ⊢
                cases hfw2 : validateFramework q with
                | none =>
                  rw [hfw2] at h
                  simp at h
                | some p5 =>
                  obtain ⟨fc2, p6⟩ := p5
                  obtain ⟨fmsg2, e2⟩ := p6
                  rw [hfw2] at h
                  dsimp only [] at h ⊢
                  have hfc2 := vcFinish_valid_fc so o sch _ fc2 fmsg2 rfl h
                  rw [vcFinish_frameworkDetail, vcFinish_finalQuery]
                  refine ⟨⟨_, rfl, hfc2⟩, fmsg2, e2, ?_⟩
                  rw [hfw2, hfc2]
              | frameworkError q m =>
                rw [hfix] at h
                simp at h
              | invalidParam =>
                rw [hfix] at h
                simp at h
            · rw [if_neg hcond] at h ⊢
              have hfc0 := vcFinish_valid_fc so o sch _ fc0 fmsg0 rfl h
              rw [vcFinish_frameworkDetail, vcFinish_finalQuery]
              refine ⟨⟨_, rfl, hfc0⟩, fmsg0, fels0, ?_⟩
              rw [hfw, hfc0]

/-! ### Stage facts for the translation pipeline -/

/-- Any query the auto-fix returns is reported compliant (general form). -/
theorem fix_fixed_compliant (sql q : Str)
    (h : fixFrameworkCompliance sql = FixResult.fixed q) :
    ∃ m e, validateFramework q = some (true, m, e) := by
  unfold fixFrameworkCompliance at h
  by_cases h0 : sql = []
  · rw [if_pos h0] at h
    exact absurd h (by simp)
  · rw [if_neg h0] at h
    dsimp only [] at h
    split at h
    · exact absurd h (by simp)
    · rename_i f1 hf1
      split at h
      · exact absurd h (by simp)
      · rename_i f2 hf2
        split at h
        · rename_i m1 e1 hfw
          injection h with h1
          rw [← h1]
          exact ⟨m1, e1, hfw⟩
        · exact absurd h (by simp)

/-- The final query of a complete validation is the input query or an
auto-fix output. -/
theorem vc_finalQuery_cases (so : Except ProviderFailure Str) (s : Str)
    (o sch : Option Str) (a : Bool) :
    (validateComplete so s o sch a).finalQuery = s ∨
    ∃ q, fixFrameworkCompliance s = FixResult.fixed q ∧
      (validateComplete so s o sch a).finalQuery = q := by
  unfold validateComplete
  dsimp only []
  cases hsyn : validateSqlSyntax s with
  | none => exact Or.inl rfl
  | some p =>
    obtain ⟨sv, sm⟩ := p
    dsimp only []
    by_cases hsv : (!sv) = true
    · rw [if_pos hsv]
      exact Or.inl rfl
    · rw [if_neg hsv]
      cases hsec : validateSecurity s with
      | none => exact Or.inl rfl
      | some p2 =>
        obtain ⟨ss, ssm⟩ := p2
        dsimp only []
        by_cases hss : (!ss) = true
        · rw [if_pos hss]
          exact Or.inl rfl
        · rw [if_neg hss]
          cases hfw : validateFramework s with
          | none => exact Or.inl rfl
          | some p3 =>
            obtain ⟨fc0, p4⟩ := p3
            obtain ⟨fmsg0, fels0⟩ := p4
            dsimp only []
            by_cases hcond : (!fc0 && a) = true
            · rw [if_pos hcond]
              cases hfix : fixFrameworkCompliance s with
              | fixed q =>
                dsimp only []
                cases hfw2 : validateFramework q with
                | none => exact Or.inl rfl
                | some p5 =>
                  obtain ⟨fc2, p6⟩ := p5
                  obtain ⟨fmsg2, e2⟩ := p6
                  dsimp only []
                  refine Or.inr ⟨q, rfl, ?_⟩
                  rw [vcFinish_finalQuery]
              | frameworkError q m => exact Or.inl rfl
              | invalidParam => exact Or.inl rfl
            · rw [if_neg hcond]
              refine Or.inl ?_
              rw [vcFinish_finalQuery]

theorem tsvui_sql (q : Str) (r : TransResult) : (tsValidateUserInput q r).sql = r.sql := by
  unfold tsValidateUserInput
  dsimp only []
  split_ifs
  · rfl
  · split <;> rfl

theorem tscr_sql (out : Except ProviderFailure Str) (r : TransResult) :
    (tsCheckRelevance out r).sql = r.sql := by
  unfold tsCheckRelevance
  split_ifs <;> rfl

theorem fsr_sql (req : Request) (sqs : List SimilarQuery) (r : TransResult) :
    (formatSimilarResponse req sqs r).sql = r.sql := by
  unfold formatSimilarResponse
  dsimp only []
  split_ifs <;> rfl

theorem ge_fields (o : Except ProviderFailure Str) (r : TransResult) :
    (generateExplanation o r).status = r.status ∧ (generateExplanation o r).sql = r.sql ∧
    (generateExplanation o r).valid = r.valid ∧
    (generateExplanation o r).frameworkCompliant = r.frameworkCompliant :=
  ⟨rfl, rfl, rfl, rfl⟩

theorem hem_good (so : Except ProviderFailure Str) (em : Str) (r : TransResult)
    (hr : r.sql = none) : GoodResult (handleExactMatch so em r) := by
  unfold handleExactMatch
  dsimp only []
  by_cases hv : (!(validateComplete so em none none true).valid) = true
  · rw [if_pos hv]
    refine ⟨Or.inl rfl, fun q h => ?_⟩
    dsimp only [] at h
    rw [hr] at h
    simp at h
  · rw [if_neg hv]
    have hvt : (validateComplete so em none none true).valid = true := by
      revert hv
      cases (validateComplete so em none none true).valid <;> simp
    obtain ⟨_, m, e, hvf⟩ := vc_valid_spec so em none none true hvt
    refine ⟨Or.inr ⟨rfl, rfl, rfl, rfl⟩, fun q h => ?_⟩
    dsimp only [] at h
    injection h with h1
    rw [← h1]
    exact ⟨m, e, hvf⟩

theorem pcv_good (so : Except ProviderFailure Str) (uq schema : Str) (r : TransResult)
    (hr : GoodResult r) (hsq : sqlTruthy r.sql = true) :
    GoodResult (performCompleteValidation so uq schema r) := by
  obtain ⟨hst, hcomp⟩ := hr
  cases hrs : r.sql with
  | none =>
    rw [hrs] at hsq
    exact absurd hsq (by decide)
  | some em =>
    have hemc : ∃ m e, validateFramework em = some (true, m, e) := hcomp em hrs
    have hgd : r.sql.getD [] = em := by rw [hrs]; rfl
    unfold performCompleteValidation
    dsimp only []
    rw [hgd]
    by_cases hv : (!(validateComplete so em (some uq) (some schema) true).valid) = true
    · rw [if_pos hv]
      refine ⟨Or.inl rfl, fun q h => ?_⟩
      dsimp only [] at h
      injection h with h1
      rcases vc_finalQuery_cases so em (some uq) (some schema) true with hfq | ⟨q2, hfix, hfq⟩
      · rw [hfq] at h1
        rw [← h1]
        exact hemc
      · rw [hfq] at h1
        rw [← h1]
        exact fix_fixed_compliant em q2 hfix
    · rw [if_neg hv]
      have hvt : (validateComplete so em (some uq) (some schema) true).valid = true := by
        revert hv
        cases (validateComplete so em (some uq) (some schema) true).valid <;> simp
      obtain ⟨⟨fd, hfd, hfdc⟩, m2, e2, hvfq⟩ :=
        vc_valid_spec so em (some uq) (some schema) true hvt
      constructor
      · rcases hst with hst0 | ⟨hst0, _, _, _⟩
        · exact Or.inl hst0
        · refine Or.inr ⟨hst0, rfl, ?_, ?_⟩
          · show some (validateComplete so em (some uq) (some schema) true).valid = some true
            rw [hvt]
          · show (match (validateComplete so em (some uq) (some schema) true).frameworkDetail with
              | some fd => fd.compliant
              | none => false) = true
            rw [hfd]
            exact hfdc
      · intro q h
        dsimp only [] at h
        injection h with h1
        rw [← h1]
        exact ⟨m2, e2, hvfq⟩

theorem fin_good (ec : Except ProviderFailure Str) (cond : Bool) (r8 : TransResult)
    (h8 : GoodResult r8) :
    GoodResult (if cond then generateExplanation ec r8 else r8) := by
  cases cond
  · exact h8
  · rw [if_pos rfl]
    exact h8

theorem r8_good (so : Except ProviderFailure Str) (uq schema : Str) (v : Bool)
    (r4 : TransResult) (h4 : GoodResult r4) :
    GoodResult (if v && sqlTruthy r4.sql then performCompleteValidation so uq schema r4
      else r4) := by
  by_cases hc : (v && sqlTruthy r4.sql) = true
  · rw [if_pos hc]
    have hsq : sqlTruthy r4.sql = true := by
      revert hc
      cases v <;> cases sqlTruthy r4.sql <;> simp
    exact pcv_good so uq schema r4 h4 hsq
  · rw [if_neg hc]
    exact h4

theorem fin_notproc (t : Rat) (r : TransResult) (h : r.status ≠ Status.processing) :
    finalizeResult t r = { r with processingTime := some t } := by
  unfold finalizeResult
  dsimp only []
  have hc : ({ r with processingTime := some t } : TransResult).status = r.status := rfl
  rw [hc, if_neg h]

theorem translateCore_good (cfg : Config) (env : PipelineEnv) (req : Request) :
    GoodResult (translateCore cfg env req) := by
  have hsql1 : (tsValidateUserInput req.userQuery
      (initTranslationResult cfg req.userQuery req.provider req.model)).sql = none := by
    rw [tsvui_sql]
    rfl
  have hsql2 : (tsCheckRelevance env.relevanceCall (tsValidateUserInput req.userQuery
      (initTranslationResult cfg req.userQuery req.provider req.model))).sql = none := by
    rw [tscr_sql, tsvui_sql]
    rfl
  unfold translateCore
  dsimp only []
  split
  · rename_i h1
    refine ⟨Or.inl h1, fun q h => ?_⟩
    rw [hsql1] at h
    simp at h
  · split
    · rename_i h2
      refine ⟨Or.inl h2, fun q h => ?_⟩
      rw [hsql2] at h
      simp at h
    · split
      · refine ⟨Or.inl rfl, fun q h => ?_⟩
        dsimp only [] at h
        rw [hsql2] at h
        simp at h
      · split
        · refine ⟨Or.inl rfl, fun q h => ?_⟩
          dsimp only [] at h
          rw [hsql2] at h
          simp at h
        · split
          · refine ⟨Or.inl rfl, fun q h => ?_⟩
            dsimp only [] at h
            rw [hsql2] at h
            simp at h
          · rename_i sqs hsqs
            have hsql3 : (formatSimilarResponse req sqs (tsCheckRelevance env.relevanceCall
                (tsValidateUserInput req.userQuery
                  (initTranslationResult cfg req.userQuery req.provider req.model)))).sql
                = none := by
              rw [fsr_sql, tscr_sql, tsvui_sql]
              rfl
            split
            · refine ⟨Or.inl rfl, fun q h => ?_⟩
              dsimp only [] at h
              rw [hsql3] at h
              simp at h
            · rename_i r4 hr4
              refine fin_good env.explainCall _ _
                (r8_good env.semanticCall req.userQuery _ req.validate r4 ?_)
              split at hr4
              · rename_i em hem
                injection hr4 with hr4e
                rw [← hr4e]
                exact hem_good env.semanticCall em _ hsql3
              · exact absurd hr4 (by simp [generateNewSql])

theorem translate_good (cfg : Config) (env : PipelineEnv) (req : Request) :
    GoodResult (translate cfg env req) := by
  have h := translateCore_good cfg env req
  have hnp : (translateCore cfg env req).status ≠ Status.processing := by
    rcases h.1 with h0 | ⟨h0, _, _, _⟩ <;> rw [h0] <;> decide
  unfold translate
  rw [fin_notproc env.elapsed _ hnp]
  exact h

/-! ### Claim theorems -/

set_option maxRecDepth 8000

/-- C10: every pass through the translation cache wrapper sets `from_cache`
on the returned record (true exactly when the value was served from the
cache), and a result whose status is not `success` is never written to the
result cache. -/
theorem c10_cache_wrapper (cacheEnabled useCacheArg storeResultArg : Bool)
    (cached : Option TransResult) (computed : TransResult) :
    (cacheServiceMethod cacheEnabled useCacheArg storeResultArg cached computed).1.fromCache
      = (cacheEnabled && useCacheArg && cached.isSome)
    ∧ (∀ w, (cacheServiceMethod cacheEnabled useCacheArg storeResultArg cached computed).2 = some w →
        w.status = Status.success) := by
  unfold cacheServiceMethod
  cases cacheEnabled with
  | false => simp
  | true =>
    cases useCacheArg with
    | false => simp
    | true =>
      cases cached with
      | some c => simp
      | none =>
        by_cases h : (computed.status = Status.success) && storeResultArg
        · rw [if_pos h]
          simp at h
          simp [h]
        · rw [if_neg h]
          simp

/-- C10 witness: a concrete `success` result is written back and carries
status `success`. -/
theorem c10_cache_wrapper_witness :
    ({ trSuccess with fromCache := false } : TransResult).status = Status.success :=
  (c10_cache_wrapper true true true none trSuccess).2 _ (by decide)

/-- C9 counterexample: `generate_completion` with the unrecognised provider
name "mistral" silently proceeds with OpenAI instead of surfacing a
`ValidationError`. -/
theorem c9_counterexample :
    dispatchProvider (("openai").toList) (some (("mistral").toList)) = ("openai").toList
    ∧ (("mistral").toList) ∉ validProvidersList
    ∧ (("mistral").toList) ≠ ("openai").toList := by
  refine ⟨by decide, by decide, by decide⟩

/-- C9 (amended): `validate_translation_request` rejects any unrecognised
provider name on an otherwise valid request, but `generate_completion`
itself, handed the same name, silently falls back to the OpenAI
implementation. -/
theorem c9_invalid_provider (p : Str) (hp : p ∉ validProvidersList) (q : Str)
    (hq0 : q ≠ []) (hq : (validateUserInput q).1 = true) (d : Str) (ph : Option Str) :
    (validateTranslationRequest q (some (some p)) ph).1 = false
    ∧ dispatchProvider d (some p) = ("openai").toList := by
  constructor
  · unfold validateTranslationRequest
    simp [hq0, hq, hp]
  · have h1 : p ≠ ("openai").toList := by
      intro hx
      exact hp (by rw [hx]; decide)
    have h2 : p ≠ ("anthropic").toList := by
      intro hx
      exact hp (by rw [hx]; decide)
    have h3 : p ≠ ("google").toList := by
      intro hx
      exact hp (by rw [hx]; decide)
    unfold dispatchProvider
    dsimp only []
    rw [if_neg h1, if_neg h2, if_neg h3]

/-- C9 witness: the amended statement at provider name "mistral". -/
theorem c9_invalid_provider_witness :
    (validateTranslationRequest (("Nombre de salaries en CDI").toList)
        (some (some (("mistral").toList))) none).1 = false
    ∧ dispatchProvider (("google").toList) (some (("mistral").toList)) = ("openai").toList :=
  c9_invalid_provider (("mistral").toList) (by decide) _ (by decide) (by decide) _ none

/-- C7 counterexample: a query whose only comment content is a
`/* ... */` block comment is flagged as an injection (pattern
`/\*.*\*/` is in `injection_patterns`), contradicting the claimed
whitelisting of block comments. -/
theorem c7_counterexample :
    (checkSqlInjection (("SELECT 1 /* doc */ FROM T").toList)).1 = true
    ∧ (checkSqlInjection (("SELECT 1 /* doc */ FROM T").toList)).2
        = injMsg (("/\\*.*\\*/").toList) := by
  refine ⟨by decide, by decide⟩

/-- C7 (amended): the SQL-injection check flags `/* ... */` block comments
(they are not whitelisted), while a `--` sequence is flagged exactly when
it is not followed by optional whitespace and `#` (the framework hashtag
convention). -/
theorem c7_injection_rules :
    (∀ s, scanB (fun _ u => blockCommentStep u) none s = true →
      (checkSqlInjection s).1 = true)
    ∧ (checkSqlInjection (("SELECT a FROM t -- note").toList)).1 = true
    ∧ (checkSqlInjection (("SELECT a FROM t --  #TAG#").toList)).1 = false := by
  refine ⟨?_, by decide, by decide⟩
  intro s hs
  unfold checkSqlInjection
  split_ifs <;> simp_all

/-- C7 witness: the amended statement evaluated at a concrete query holding
a block comment. -/
theorem c7_injection_rules_witness :
    (checkSqlInjection (("SELECT x /* a */ FROM T WHERE y").toList)).1 = true :=
  (c7_injection_rules).1 _ (by decide)

/-- C6 counterexample: the orchestrator's exact-match gate returns a
candidate whose SQL contains the year token 2025, different from the year
token 2024 of the question, because only the first year tokens are
compared. -/
theorem c6_counterexample :
    tsCheckExactMatch (("salaries en 2024").toList) staleSimilars (mkRat 95 100)
      = some staleCandidate
    ∧ (("2024").toList) ∈ findYears (("salaries en 2024").toList)
    ∧ (("2025").toList) ∈ findYears staleCandidate
    ∧ (("2025").toList) ≠ ("2024").toList := by
  refine ⟨by decide, by decide, by decide, by decide⟩

/-- C6 (amended): the exact-match gate compares only the FIRST `20\d{2}`
tokens: a returned candidate never has a first year token different from
the question's first year token (when both have one), and a candidate
whose first year token differs from the question's is rejected. -/
theorem c6_exact_match_year_rule :
    (∀ q sqs th c, tsCheckExactMatch q sqs th = some c →
      findYears q = [] ∨ findYears c = [] ∨ (findYears q).head? = (findYears c).head?)
    ∧ (∀ q sqs th em, checkExactMatchVS sqs th = Except.ok (some em) →
      findYears q ≠ [] → findYears em ≠ [] →
      (findYears q).head? ≠ (findYears em).head? →
      tsCheckExactMatch q sqs th = none) := by
  constructor
  · intro q sqs th c h
    unfold tsCheckExactMatch at h
    split at h
    · exact absurd h (by simp)
    · exact absurd h (by simp)
    · rename_i em hvs
      dsimp only [] at h
      split at h
      · exact absurd h (by simp)
      · rename_i hcond
        injection h with h1
        subst h1
        by_cases h2 : findYears q = []
        · exact Or.inl h2
        · by_cases h3 : findYears em = []
          · exact Or.inr (Or.inl h3)
          · refine Or.inr (Or.inr ?_)
            by_cases h4 : (findYears q).head? = (findYears em).head?
            · exact h4
            · exact absurd ⟨h2, h3, h4⟩ hcond
  · intro q sqs th em hvs hq hem hne
    unfold tsCheckExactMatch
    rw [hvs]
    simp [hq, hem, hne]

/-- C6 witness: the amended statement at a question with first year 2024 and
a candidate with first year 2023: the candidate is rejected. -/
theorem c6_exact_match_year_rule_witness :
    tsCheckExactMatch (("salaries en 2024").toList) oldYearSimilars (mkRat 95 100) = none :=
  (c6_exact_match_year_rule).2 (("salaries en 2024").toList) oldYearSimilars (mkRat 95 100)
    (("SELECT d.B FROM DEPOT d WHERE annee=2023").toList)
    (by rfl) (by decide) (by decide) (by decide)

/-- C3: the semantic check is never the sole cause of a hard failure — in
fact `validate_semantics` returns the non-fatal "validation skipped"
outcome on every call (the `context=` `TypeError` is caught by its
fail-open `except`), and the whole translation result does not depend on
the semantic-validation provider outcome at all. -/
theorem c3_semantic_never_sole_cause :
    (∀ (out : Except ProviderFailure Str) (sqlQuery origReq : Str),
      sqlQuery ≠ [] → origReq ≠ [] →
      validateSemantics out sqlQuery origReq
        = some (true, ("Validation sémantique ignorée due à une erreur LLM").toList))
    ∧ (∀ (cfg : Config) (env : PipelineEnv) (req : Request)
        (so2 : Except ProviderFailure Str),
        translate cfg env req = translate cfg { env with semanticCall := so2 } req) := by
  constructor
  · intro out s o hs ho
    unfold validateSemantics
    rw [if_neg (by simp [hs, ho])]
  · intro cfg env req so2
    have hvs : ∀ (o1 o2 : Except ProviderFailure Str) (s r : Str),
        validateSemantics o1 s r = validateSemantics o2 s r := fun _ _ _ _ => rfl
    have hvf : vcFinish env.semanticCall = vcFinish so2 := by
      funext o sch b fc m
      unfold vcFinish
      rw [hvs env.semanticCall so2 b.finalQuery (o.getD [])]
    have hvc : ∀ s o sch a, validateComplete env.semanticCall s o sch a
        = validateComplete so2 s o sch a := by
      intro s o sch a
      unfold validateComplete
      rw [hvf]
    have hhem : handleExactMatch env.semanticCall = handleExactMatch so2 := by
      funext em r
      unfold handleExactMatch
      rw [hvc em none none true]
    have hpcv : performCompleteValidation env.semanticCall
        = performCompleteValidation so2 := by
      funext uq sch r
      unfold performCompleteValidation
      rw [hvc (r.sql.getD []) (some uq) (some sch) true]
    unfold translate translateCore
    simp only [hhem, hpcv]

/-- C3 witness: the fail-open skip outcome at a concrete provider failure,
and independence of a concrete run from a failing semantic call. -/
theorem c3_semantic_never_sole_cause_witness :
    validateSemantics
        (Except.error ⟨ProviderFailureKind.network, ("Erreur API OpenAI: timeout").toList⟩)
        (("SELECT 1").toList) (("Nombre de salaries").toList)
      = some (true, ("Validation sémantique ignorée due à une erreur LLM").toList)
    ∧ translate cfgStd envStd (reqStd true false)
      = translate cfgStd
          { envStd with
            semanticCall :=
              Except.error ⟨ProviderFailureKind.network, ("Erreur API OpenAI: timeout").toList⟩ }
          (reqStd true false) :=
  ⟨(c3_semantic_never_sole_cause).1 _ _ _ (by decide) (by decide),
   (c3_semantic_never_sole_cause).2 cfgStd envStd (reqStd true false) _⟩

/-- C4 counterexample: an auth-classified provider failure during the
relevance check does not abort the pipeline with `error` — the run still
reaches a successful exact-match result, because
`LLMService.check_relevance` swallows every exception and returns `True`,
so the orchestrator's auth abort handler never fires. -/
theorem c4_counterexample :
    (translate cfgStd
        { envStd with
          relevanceCall :=
            Except.error ⟨ProviderFailureKind.auth, ("Erreur OpenAI (401): cle invalide").toList⟩ }
        (reqStd true false)).status = Status.success := by decide

/-- C4 (amended): a "not relevant" reply aborts the pipeline with `error`
and the domain-specific message, while EVERY provider failure during the
relevance check (network, auth and quota alike) is treated as "relevant":
the whole translation behaves exactly as if the provider had answered
"OUI"; the orchestrator's auth/quota abort handlers are unreachable. -/
theorem c4_relevance_handling :
    (∀ cfg env req e, env.relevanceCall = Except.error e →
      translate cfg env req
        = translate cfg { env with relevanceCall := Except.ok (("OUI").toList) } req)
    ∧ (∀ out r s, out = Except.ok s → containsStr (upS s) (("OUI").toList) = false →
      (tsCheckRelevance out r).status = Status.error
      ∧ (tsCheckRelevance out r).validationMessage = some relevanceAbortMsg) := by
  constructor
  · intro cfg env req e he
    have h1 : LLMcheckRelevance (Except.error e) = true := rfl
    have h2 : LLMcheckRelevance (Except.ok (("OUI").toList)) = true := by decide
    unfold translate translateCore tsCheckRelevance
    simp only [he, h1, h2]
  · intro out r s ho hc
    subst ho
    unfold tsCheckRelevance
    rw [show LLMcheckRelevance (Except.ok s) = containsStr (upS s) (("OUI").toList) from rfl, hc]
    simp

/-- C4 witness: the amended statement at a quota failure (the run equals the
"relevant" run) and at a "NON" reply (the stage aborts with the
domain-specific message). -/
theorem c4_relevance_handling_witness :
    (translate cfgStd
        { envStd with
          relevanceCall :=
            Except.error ⟨ProviderFailureKind.quota, ("Erreur OpenAI (429): quota").toList⟩ }
        (reqStd true false)
      = translate cfgStd
          { { envStd with
              relevanceCall :=
                Except.error ⟨ProviderFailureKind.quota, ("Erreur OpenAI (429): quota").toList⟩ }
            with relevanceCall := Except.ok (("OUI").toList) }
          (reqStd true false))
    ∧ ((tsCheckRelevance (Except.ok (("NON").toList))
          (initTranslationResult cfgStd (("abc").toList) none none)).status = Status.error
      ∧ (tsCheckRelevance (Except.ok (("NON").toList))
          (initTranslationResult cfgStd (("abc").toList) none none)).validationMessage
            = some relevanceAbortMsg) :=
  ⟨(c4_relevance_handling).1 _ _ _ _ rfl,
   (c4_relevance_handling).2 _ _ _ rfl (by decide)⟩

/-- C5 counterexample: a SQL string with an aliased DEPOT occurrence that
does not start with SELECT makes the auto-fix raise `FrameworkError`
instead of returning a compliant query. -/
theorem c5_counterexample :
    searchDepotTable (("FROM DEPOT d").toList) = true
    ∧ fixFrameworkCompliance (("FROM DEPOT d").toList)
        = FixResult.frameworkError
            (("FROM DEPOT d WHERE d.ID_USER = ? #DEPOT_d#").toList)
            (("Correction automatique échouée").toList) := by
  refine ⟨by decide, by decide⟩

/-- C8 counterexample: on a compliant query with surrounding whitespace the
auto-fix returns the stripped text, not the input character for
character. -/
theorem c8_counterexample :
    (validateFramework
        (("  SELECT d.A FROM DEPOT d WHERE d.ID_USER = ? #DEPOT_d#  ").toList)).map
        (fun t => t.1) = some true
    ∧ fixFrameworkCompliance
        (("  SELECT d.A FROM DEPOT d WHERE d.ID_USER = ? #DEPOT_d#  ").toList)
      ≠ FixResult.fixed (("  SELECT d.A FROM DEPOT d WHERE d.ID_USER = ? #DEPOT_d#  ").toList)
    ∧ fixFrameworkCompliance
        (("  SELECT d.A FROM DEPOT d WHERE d.ID_USER = ? #DEPOT_d#  ").toList)
      = FixResult.fixed (("SELECT d.A FROM DEPOT d WHERE d.ID_USER = ? #DEPOT_d#").toList) := by
  refine ⟨by decide, by decide, by decide⟩

/-- C2: every `success` result carries a non-null `sql`, `valid = true` and
`framework_compliant = true`, for every request — in particular also with
`validate = false`: the generation branch always aborts on the `context=`
`TypeError`, so the only path to `success` is the exact-match handler,
which always runs the complete validation regardless of the flag. -/
theorem c2_success_invariant (cfg : Config) (env : PipelineEnv) (req : Request)
    (hs : (translate cfg env req).status = Status.success) :
    (translate cfg env req).sql.isSome = true
    ∧ (translate cfg env req).valid = some true
    ∧ (translate cfg env req).frameworkCompliant = true := by
  obtain ⟨hst, _⟩ := translate_good cfg env req
  rcases hst with h | ⟨_, h2, h3, h4⟩
  · rw [h] at hs
    exact absurd hs (by decide)
  · exact ⟨h2, h3, h4⟩

/-- C2 witness: a concrete `success` run with the validate flag disabled
still carries non-null SQL, `valid = true` and compliance. -/
theorem c2_success_invariant_witness :
    (translate cfgStd envStd (reqStd false false)).sql.isSome = true
    ∧ (translate cfgStd envStd (reqStd false false)).valid = some true
    ∧ (translate cfgStd envStd (reqStd false false)).frameworkCompliant = true :=
  c2_success_invariant cfgStd envStd (reqStd false false) (by decide)

/-- C1: a final result never carries SQL beginning with a keyword from the
destructive set, for every request including `validate = false` — so in
particular no such result has status `success`.  The only stage that sets
the `sql` field is the exact-match handler (generation always aborts on
the `context=` `TypeError`), it always validates with auto-fix, and a
validated query is framework-compliant, hence SELECT-prefixed and unable
to start with a destructive keyword. -/
theorem c1_destructive_never_carried (cfg : Config) (env : PipelineEnv)
    (req : Request) (q : Str) (hq : (translate cfg env req).sql = some q) :
    destrLead q = false := by
  obtain ⟨_, hcomp⟩ := translate_good cfg env req
  obtain ⟨m, e, hvf⟩ := hcomp q hq
  exact not_destrLead_of_compliant q m e hvf

/-- C1 witness: the SQL carried by a concrete unvalidated run is not
destructive. -/
theorem c1_destructive_never_carried_witness :
    destrLead (("SELECT d.A FROM DEPOT d WHERE d.ID_USER = ? #DEPOT_d#").toList) = false :=
  c1_destructive_never_carried cfgStd envStd (reqStd false false)
    (("SELECT d.A FROM DEPOT d WHERE d.ID_USER = ? #DEPOT_d#").toList) (by decide)

/-- C5 (amended): the auto-fix can raise `FrameworkError` even on input with
an aliased DEPOT occurrence, but whenever it does return a fixed query,
that query is reported compliant by the framework validation (the fix
re-validates before returning). -/
theorem c5_fix_output_compliant (sql q : Str)
    (h : fixFrameworkCompliance sql = FixResult.fixed q) :
    (validateFramework q).map (fun t => t.1) = some true := by
  unfold fixFrameworkCompliance at h
  by_cases h0 : sql = []
  · rw [if_pos h0] at h
    exact absurd h (by simp)
  · rw [if_neg h0] at h
    dsimp only [] at h
    split at h
    · exact absurd h (by simp)
    · rename_i f1 hf1
      split at h
      · exact absurd h (by simp)
      · rename_i f2 hf2
        split at h
        · rename_i m1 e1 hfw
          injection h with h1
          rw [← h1, hfw]
          simp
        · exact absurd h (by simp)

/-- C5 witness: the amended statement at a fixable concrete input. -/
theorem c5_fix_output_compliant_witness :
    (validateFramework
        (("SELECT d.A FROM DEPOT d WHERE d.ID_USER = ? #DEPOT_d#").toList)).map
        (fun t => t.1) = some true :=
  c5_fix_output_compliant (("SELECT d.A FROM DEPOT d").toList)
    (("SELECT d.A FROM DEPOT d WHERE d.ID_USER = ? #DEPOT_d#").toList) (by decide)

/-- C8 (amended): on an input the framework validation reports compliant,
the auto-fix returns the stripped input `sql.strip()` — so it is the
identity exactly on compliant inputs with no surrounding whitespace. -/
theorem c8_fix_on_compliant (sql : Str)
    (h : (validateFramework sql).map (fun t => t.1) = some true) :
    fixFrameworkCompliance sql = FixResult.fixed (pstrip sql)
    ∧ (pstrip sql = sql → fixFrameworkCompliance sql = FixResult.fixed sql) := by
  cases hvf : validateFramework sql with
  | none =>
    rw [hvf] at h
    exact absurd h (by simp)
  | some tr =>
    obtain ⟨flag, m, e⟩ := tr
    rw [hvf] at h
    have hflag : flag = true := by
      simpa using h
    rw [hflag] at hvf
    have hne : sql ≠ [] := by
      intro hx
      rw [hx, show validateFramework ([] : Str) = none from rfl] at hvf
      exact absurd hvf (by simp)
    unfold validateFramework at hvf
    rw [if_neg hne] at hvf
    dsimp only [] at hvf
    have hUF : (analyzeFrameworkElements (pstrip sql)).hasUserFilter = true := by
      by_cases hx : (analyzeFrameworkElements (pstrip sql)).hasUserFilter = true
      · exact hx
      · rw [if_neg hx] at hvf
        simp at hvf
    have hDT : (analyzeFrameworkElements (pstrip sql)).hasDepotTable = true := by
      by_cases hx : (analyzeFrameworkElements (pstrip sql)).hasDepotTable = true
      · exact hx
      · rw [if_neg hx] at hvf
        simp at hvf
    have hHT : (analyzeFrameworkElements (pstrip sql)).hasHashtags = true := by
      by_cases hx : (analyzeFrameworkElements (pstrip sql)).hasHashtags = true
      · exact hx
      · rw [if_neg hx] at hvf
        simp at hvf
    have hSel : (analyzeFrameworkElements (pstrip sql)).isSelectQuery = true := by
      by_cases hx : (analyzeFrameworkElements (pstrip sql)).isSelectQuery = true
      · exact hx
      · rw [if_neg hx] at hvf
        simp at hvf
    have hm0 : pstrip sql ≠ [] := by
      intro hx
      rw [hx] at hUF
      exact absurd hUF (by decide)
    have hvf2 : validateFramework (pstrip sql)
        = some (true, ("Requête conforme au framework obligatoire").toList,
            analyzeFrameworkElements (pstrip sql)) := by
      unfold validateFramework
      rw [if_neg hm0]
      dsimp only []
      rw [pstrip_idem, if_pos hUF, if_pos hDT, if_pos hHT, if_pos hSel]
      simp
    have hfix : fixFrameworkCompliance sql = FixResult.fixed (pstrip sql) := by
      unfold fixFrameworkCompliance
      rw [if_neg hne]
      dsimp only []
      rw [show searchUserFilter (pstrip sql) = true from hUF, if_pos rfl]
      dsimp only []
      rw [show searchHashtags (pstrip sql) = true from hHT, if_pos rfl]
      dsimp only []
      rw [hvf2]
    exact ⟨hfix, fun hps => by rw [hfix, hps]⟩

/-- C8 witness: the amended statement at a compliant input padded with
whitespace: the fix strips it. -/
theorem c8_fix_on_compliant_witness :
    fixFrameworkCompliance
        (("  SELECT d.A FROM DEPOT d WHERE d.ID_USER = ? #DEPOT_d#  ").toList)
      = FixResult.fixed (pstrip (("  SELECT d.A FROM DEPOT d WHERE d.ID_USER = ? #DEPOT_d#  ").toList)) :=
  (c8_fix_on_compliant
    (("  SELECT d.A FROM DEPOT d WHERE d.ID_USER = ? #DEPOT_d#  ").toList) (by decide)).1

end NL2SQL
